import Mathlib

/-!
# Secure-boot authentication pipeline and AES IPI dispatcher

A shallow embedding of

* `lib/sw_apps/rsa_auth_app/src/rsa_auth_app.c`
  (`SetPpk`, `AuthenticatePartition`, `RecreatePaddingAndCheck`), and
* `lib/sw_services/xilsecure/src/versal/server/xsecure_aes_ipihandler.c`
  (`XSecure_AesIpiHandler` and the thirteen handlers it dispatches to),

followed by the properties proved about them.

Conventions of the embedding.

* A `u8 *` into memory that the code only reads is the sequence of bytes
  found from that address on: `p[i]` is `p i`, and `p + n` is `Ptr.add p n`.
* A byte, a `u32` and an address are natural numbers; `u32` arithmetic that
  can wrap is reduced modulo `2^32` explicitly.
* A status (`int`) is an integer.
* The external primitives (`sha_256`, `rsa2048_pubexp`, the AES driver, the
  DMA driver) are parameters; every call made to them is appended to a log.
* Where a property depends on the session state kept by the AES driver, the
  driver is modelled from the specification's session state machine
  (`specDrivers`), over hardware whose outcomes are left open.
-/

namespace Embeddedsw

/-! ## Status codes and size constants -/

/-- Modelled from the spec: `xstatus.h` is not part of the sources at hand and
the spec speaks of a success and a failure result only; `XST_SUCCESS` is given
the value `0L` it has in that header. The properties below use only that the
three status values are pairwise distinct. -/
def XST_SUCCESS : Int := 0

/-- Modelled from the spec: `xstatus.h` is not part of the sources at hand;
`XST_FAILURE` is given the value `1L` it has in that header. -/
def XST_FAILURE : Int := 1

/-- Modelled from the spec: `xstatus.h` is not part of the sources at hand;
`XST_INVALID_PARAM` is given the value `15L` it has in that header. -/
def XST_INVALID_PARAM : Int := 15

/-- Modelled from the spec: `rsa_auth_app.h` (not part of the sources at hand)
defines the signature block size; the spec fixes the block at 256 bytes
(RSA-2048). -/
def RSA_PARTITION_SIGNATURE_SIZE : Nat := 256

/-- Modelled from the spec: `rsa_auth_app.h` is missing; the spec's data model
gives `padLen = BlockSize - 2 - 1 - len(T_PADDING) - 32`, that is, three
framing bytes (the leading `0x00`, `0x01` and the `0x00` separator), and the
comment in `RecreatePaddingAndCheck` says `0xFF(for 202 bytes)`. -/
def RSA_BYTE_PAD_LENGTH : Nat := 3

/-- Modelled from the spec: `rsa_auth_app.h` is missing; the spec gives the
length of `T_PADDING` as 19 bytes, which is also `sizeof(T_padding)` in the
source. -/
def RSA_T_PAD_LENGTH : Nat := 19

/-- Modelled from the spec: `rsa_auth_app.h` is missing; a SHA-256 digest is
32 bytes. -/
def HASHLEN : Nat := 32

/-! ## Pointers -/

/-- A read-only `u8 *` (or `u32 *` for a payload): the values found from the
pointed-to address on. -/
abbrev Ptr := Nat → Nat

/-- Pointer arithmetic `p + n`. -/
def Ptr.add (p : Ptr) (n : Nat) : Ptr := fun i => p (n + i)

/-- The load `*((u32 *)p)` on the little-endian targets of this application. -/
def Ptr.readU32 (p : Ptr) : Nat :=
  (p 0 % 256) + 256 * (p 1 % 256) + 65536 * (p 2 % 256) + 16777216 * (p 3 % 256)

/-! ## `RecreatePaddingAndCheck` -/

/-- The local array `T_padding[]` of `RecreatePaddingAndCheck`. -/
def T_padding : List Nat :=
  [0x30, 0x31, 0x30, 0x0D, 0x06, 0x09, 0x60, 0x86, 0x48,
   0x01, 0x65, 0x03, 0x04, 0x02, 0x01, 0x05, 0x00, 0x04, 0x20]

/-- The cursor `pad_ptr`, as an offset from `signature`, together with the
offsets that have been dereferenced so far (oldest first). The offset is an
integer so that a step below `signature[0]` would show. -/
structure Walk where
  pad_ptr : Int
  reads : List Int

/-- The side effect of `--pad_ptr` followed by a dereference. -/
def Walk.predec (w : Walk) : Walk :=
  { pad_ptr := w.pad_ptr - 1, reads := w.reads ++ [w.pad_ptr - 1] }

/-- The value of `*pad_ptr`. -/
def Walk.deref (signature : Ptr) (w : Walk) : Nat :=
  signature w.pad_ptr.toNat

/-- The loop `for (ii = ii0; ii < ii0 + remaining; ii++) if (*--pad_ptr != expected[ii]) goto END;`.
The boolean is `false` when the loop left through `goto END`. -/
def checkLoop (signature : Ptr) (expected : Nat → Nat) :
    (remaining : Nat) → (ii : Nat) → Walk → Bool × Walk
  | 0, _, w => (true, w)
  | remaining + 1, ii, w =>
    let w1 := w.predec
    if w1.deref signature ≠ expected ii then (false, w1)
    else checkLoop signature expected remaining (ii + 1) w1

/-- The expression assigned to `padlen`, as a function of the four macros it
mentions: the subtraction is done on `int` and the result converted to `u32`. -/
def padlenExpr (sigSize bytePad tPad hashLen : Nat) : Nat :=
  (((sigSize : Int) - (bytePad : Int) - (tPad : Int) - (hashLen : Int)) % 2 ^ 32).toNat

/-- The local `padlen` of `RecreatePaddingAndCheck`. -/
def padlen : Nat :=
  padlenExpr RSA_PARTITION_SIGNATURE_SIZE RSA_BYTE_PAD_LENGTH RSA_T_PAD_LENGTH HASHLEN

/-- The body of `RecreatePaddingAndCheck`: the returned status and the offsets
of `signature` that were read, in the order they were read. -/
def RecreatePaddingAndCheckWalk (signature hash : Ptr) : Int × List Int :=
  let Status := XST_FAILURE
  let w0 : Walk := { pad_ptr := RSA_PARTITION_SIGNATURE_SIZE, reads := [] }
  let w1 := w0.predec
  if w1.deref signature ≠ 0x00 then (Status, w1.reads) else
  let w2 := w1.predec
  if w2.deref signature ≠ 0x01 then (Status, w2.reads) else
  match checkLoop signature (fun _ => 0xFF) padlen 0 w2 with
  | (false, w3) => (Status, w3.reads)
  | (true, w3) =>
    let w4 := w3.predec
    if w4.deref signature ≠ 0x00 then (Status, w4.reads) else
    match checkLoop signature (fun ii => T_padding.getD ii 0) T_padding.length 0 w4 with
    | (false, w5) => (Status, w5.reads)
    | (true, w5) =>
      match checkLoop signature hash HASHLEN 0 w5 with
      | (false, w6) => (Status, w6.reads)
      | (true, w6) => (XST_SUCCESS, w6.reads)

/-- The function `RecreatePaddingAndCheck(signature, hash)`. -/
def RecreatePaddingAndCheck (signature hash : Ptr) : Int :=
  (RecreatePaddingAndCheckWalk signature hash).1

/-! ## The certificate layout, `SetPpk` and `AuthenticatePartition` -/

/-- The field sizes of the authentication certificate. They are macros of
`rsa_auth_app.h`, which is not part of the sources at hand, so they are taken
as parameters. -/
structure CertLayout where
  RSA_HEADER_SIZE : Nat
  RSA_MAGIC_WORD_SIZE : Nat
  RSA_PPK_MODULAR_SIZE : Nat
  RSA_PPK_MODULAR_EXT_SIZE : Nat
  RSA_PPK_EXPO_SIZE : Nat
  RSA_SPK_MODULAR_SIZE : Nat
  RSA_SPK_MODULAR_EXT_SIZE : Nat
  RSA_SPK_EXPO_SIZE : Nat
  RSA_SPK_SIGNATURE_SIZE : Nat

/-- The external primitives of `xilrsa.h`: `sha_256(in, size, out)` gives the
contents of `out`, and `rsa2048_pubexp(a, x, e, m, rrm)` gives the contents of
`a`. -/
structure Prims where
  sha_256 : Ptr → Nat → Ptr
  rsa2048_pubexp : Ptr → Nat → Ptr → Ptr → Ptr

/-- A call made to an external primitive, with the arguments it was given. -/
inductive PrimCall where
  | sha_256 (input : Ptr) (size : Nat)
  | rsa2048_pubexp (x : Ptr) (e : Nat) (m : Ptr) (rrm : Ptr)

/-- Whether a logged call is a call of `sha_256`. -/
def PrimCall.isSha : PrimCall → Bool
  | .sha_256 _ _ => true
  | .rsa2048_pubexp _ _ _ _ => false

/-- Whether a logged call is a call of `rsa2048_pubexp`. -/
def PrimCall.isRsa : PrimCall → Bool
  | .sha_256 _ _ => false
  | .rsa2048_pubexp _ _ _ _ => true

/-- The file-scope variables `PpkModular`, `PpkModularEx` and `PpkExp`. -/
structure PpkCache where
  PpkModular : Ptr
  PpkModularEx : Ptr
  PpkExp : Nat

/-- The function `SetPpk(CertStart)`, as a transformer of the file-scope
variables. -/
def SetPpk (L : CertLayout) (CertStart : Ptr) (_old : PpkCache) : PpkCache :=
  let PpkPtr := CertStart
  let PpkPtr := PpkPtr.add L.RSA_HEADER_SIZE
  let PpkPtr := PpkPtr.add L.RSA_MAGIC_WORD_SIZE
  let PpkModular := PpkPtr
  let PpkPtr := PpkPtr.add L.RSA_PPK_MODULAR_SIZE
  let PpkModularEx := PpkPtr
  let PpkPtr := PpkPtr.add L.RSA_PPK_MODULAR_EXT_SIZE
  let PpkExp := PpkPtr.readU32
  { PpkModular := PpkModular, PpkModularEx := PpkModularEx, PpkExp := PpkExp }

/-- The `u32` subtraction `Size - RSA_PARTITION_SIGNATURE_SIZE`. -/
def partitionHashLen (Size : Nat) : Nat :=
  (Size + 2 ^ 32 - RSA_PARTITION_SIGNATURE_SIZE) % 2 ^ 32

/-- The function `AuthenticatePartition(Buffer, Size, CertStart)`, run with the
file-scope variables `G`: the returned status and the calls made to the
external primitives, in order. -/
def AuthenticatePartitionLog (P : Prims) (L : CertLayout) (G : PpkCache)
    (Buffer : Ptr) (Size : Nat) (CertStart : Ptr) : Int × List PrimCall :=
  let SignaturePtr := CertStart
  let SignaturePtr := SignaturePtr.add L.RSA_HEADER_SIZE
  let SignaturePtr := SignaturePtr.add L.RSA_MAGIC_WORD_SIZE
  let SignaturePtr := SignaturePtr.add L.RSA_PPK_MODULAR_SIZE
  let SignaturePtr := SignaturePtr.add L.RSA_PPK_MODULAR_EXT_SIZE
  let SignaturePtr := SignaturePtr.add L.RSA_PPK_EXPO_SIZE
  let size1 := L.RSA_SPK_MODULAR_EXT_SIZE + L.RSA_SPK_EXPO_SIZE + L.RSA_SPK_MODULAR_SIZE
  let HashSignature := P.sha_256 SignaturePtr size1
  let log := [PrimCall.sha_256 SignaturePtr size1]
  let SpkModular := SignaturePtr
  let SignaturePtr := SignaturePtr.add L.RSA_SPK_MODULAR_SIZE
  let SpkModularEx := SignaturePtr
  let SignaturePtr := SignaturePtr.add L.RSA_SPK_MODULAR_EXT_SIZE
  let SpkExp := SignaturePtr.readU32
  let SignaturePtr := SignaturePtr.add L.RSA_SPK_EXPO_SIZE
  let DecryptSignature := P.rsa2048_pubexp SignaturePtr G.PpkExp G.PpkModular G.PpkModularEx
  let log := log ++ [PrimCall.rsa2048_pubexp SignaturePtr G.PpkExp G.PpkModular G.PpkModularEx]
  let Status := RecreatePaddingAndCheck DecryptSignature HashSignature
  if Status ≠ XST_SUCCESS then (Status, log) else
  let SignaturePtr := SignaturePtr.add L.RSA_SPK_SIGNATURE_SIZE
  let DecryptSignature := P.rsa2048_pubexp SignaturePtr SpkExp SpkModular SpkModularEx
  let log := log ++ [PrimCall.rsa2048_pubexp SignaturePtr SpkExp SpkModular SpkModularEx]
  let HashSignature := P.sha_256 Buffer (partitionHashLen Size)
  let log := log ++ [PrimCall.sha_256 Buffer (partitionHashLen Size)]
  let Status := RecreatePaddingAndCheck DecryptSignature HashSignature
  (Status, log)

/-- The status returned by `AuthenticatePartition(Buffer, Size, CertStart)`. -/
def AuthenticatePartition (P : Prims) (L : CertLayout) (G : PpkCache)
    (Buffer : Ptr) (Size : Nat) (CertStart : Ptr) : Int :=
  (AuthenticatePartitionLog P L G Buffer Size CertStart).1

/-- The function `AuthenticateApp`, for a certificate at `CERTIFICATE_START_ADDR`
and a partition of `PARTITION_SIZE` bytes at `APPLICATION_START_ADDR`: `SetPpk`
and then `AuthenticatePartition`. -/
def AuthenticateApp (P : Prims) (L : CertLayout) (G : PpkCache)
    (APPLICATION_START_ADDR : Ptr) (PARTITION_SIZE : Nat)
    (CERTIFICATE_START_ADDR : Ptr) : Int :=
  let G := SetPpk L CERTIFICATE_START_ADDR G
  AuthenticatePartition P L G APPLICATION_START_ADDR PARTITION_SIZE CERTIFICATE_START_ADDR

/-! ## The AES IPI handlers -/

/-- The configuration record `XPmcDma_Config`; only `BaseAddress` is used. -/
structure XPmcDma_Config where
  BaseAddress : Nat
  deriving DecidableEq

/-- The fields of `XSecure_AesInitOps` that `XSecure_AesOpInit` reads. -/
structure XSecure_AesInitOps where
  IvAddr : Nat
  OperationId : Nat
  KeySrc : Nat
  KeySize : Nat

/-- The fields of `XSecure_AesInParams` that the update handlers read. -/
structure XSecure_AesInParams where
  InDataAddr : Nat
  Size : Nat
  IsLast : Nat

/-- Constants of headers that are not part of the sources at hand
(`xsecure_defs.h`, `xplmi_dma.h`, `xparameters.h`), taken as parameters: the
thirteen `case` labels `XSECURE_API(XSECURE_API_AES_...)`, `XSECURE_ENCRYPT`,
the DMA device id and flags, and the two `sizeof` values. -/
structure AesConsts where
  API_AES_INIT : Nat
  API_AES_OP_INIT : Nat
  API_AES_UPDATE_AAD : Nat
  API_AES_ENCRYPT_UPDATE : Nat
  API_AES_ENCRYPT_FINAL : Nat
  API_AES_DECRYPT_UPDATE : Nat
  API_AES_DECRYPT_FINAL : Nat
  API_AES_KEY_ZERO : Nat
  API_AES_WRITE_KEY : Nat
  API_AES_KEK_DECRYPT : Nat
  API_AES_SET_DPA_CM : Nat
  API_AES_DECRYPT_KAT : Nat
  API_AES_DECRYPT_CM_KAT : Nat
  XSECURE_ENCRYPT : Nat
  PMCDMA_0_DEVICE_ID : Nat
  XPLMI_PMCDMA_0 : Nat
  sizeof_AesInitOps : Nat
  sizeof_AesInParams : Nat

/-- The `case` labels of `XSecure_AesIpiHandler`, in source order. -/
def AesConsts.apiIds (K : AesConsts) : List Nat :=
  [K.API_AES_INIT, K.API_AES_OP_INIT, K.API_AES_UPDATE_AAD, K.API_AES_ENCRYPT_UPDATE,
   K.API_AES_ENCRYPT_FINAL, K.API_AES_DECRYPT_UPDATE, K.API_AES_DECRYPT_FINAL,
   K.API_AES_KEY_ZERO, K.API_AES_WRITE_KEY, K.API_AES_KEK_DECRYPT, K.API_AES_SET_DPA_CM,
   K.API_AES_DECRYPT_KAT, K.API_AES_DECRYPT_CM_KAT]

/-- A call of a status-returning collaborator (DMA driver, DMA transfer, AES
driver) with its arguments; the instance pointers `&Secure_Aes` and
`&PmcDmaInstance` are left out. -/
inductive DrvCall where
  | XPmcDma_CfgInitialize (CfgPtr : XPmcDma_Config) (EffectiveAddr : Nat)
  | XSecure_AesInitialize
  | XPlmi_DmaXfr (SrcAddr Len Flags : Nat)
  | XSecure_AesEncryptInit (KeySrc KeySize IvAddr : Nat)
  | XSecure_AesDecryptInit (KeySrc KeySize IvAddr : Nat)
  | XSecure_AesUpdateAad (AadAddr AadSize : Nat)
  | XSecure_AesEncryptUpdate (InDataAddr OutDataAddr Size IsLast : Nat)
  | XSecure_AesEncryptFinal (GcmTagAddr : Nat)
  | XSecure_AesDecryptUpdate (InDataAddr OutDataAddr Size IsLast : Nat)
  | XSecure_AesDecryptFinal (GcmTagAddr : Nat)
  | XSecure_AesKeyZero (KeySrc : Nat)
  | XSecure_AesWriteKey (KeySrc KeySize KeyAddr : Nat)
  | XSecure_AesKekDecrypt (DecKeySrc DstKeySrc IvAddr KeySize : Nat)
  | XSecure_AesSetDpaCm (DpaCmCfg : Nat)
  | XSecure_AesDecryptKat
  | XSecure_AesDecryptCmKat
  deriving DecidableEq

/-- The collaborators, over an arbitrary state `W` of the hardware and driver
instances (`Secure_Aes`, `PmcDmaInstance`, the memory a DMA transfer reads). -/
structure Drivers (W : Type) where
  /-- The pointer returned by `XPmcDma_LookupConfig(DeviceId)` (`none` is `NULL`). -/
  XPmcDma_LookupConfig : Nat → W → Option XPmcDma_Config × W
  /-- The status returned by a status-returning call, and the state after it. -/
  call : DrvCall → W → Int × W
  /-- The contents of a local `XSecure_AesInitOps` after `XPlmi_DmaXfr` from `SrcAddr`. -/
  dmaAesInitOps : (SrcAddr : Nat) → W → XSecure_AesInitOps
  /-- The contents of a local `XSecure_AesInParams` after `XPlmi_DmaXfr` from `SrcAddr`. -/
  dmaAesInParams : (SrcAddr : Nat) → W → XSecure_AesInParams

/-- A collaborator call that was made, with what it returned. -/
inductive Event where
  | lookup (DeviceId : Nat) (Config : Option XPmcDma_Config)
  | status (c : DrvCall) (Status : Int)
  deriving DecidableEq

/-- Whether the logged call reported success. -/
def Event.ok : Event → Bool
  | .lookup _ Config => Config.isSome
  | .status _ Status => decide (Status = XST_SUCCESS)

/-- The status the handler has in hand after the logged call: the status the
call returned, or the initial `XST_FAILURE` for `XPmcDma_LookupConfig`, which
returns a pointer. -/
def Event.statusAfter : Event → Int
  | .lookup _ _ => XST_FAILURE
  | .status _ Status => Status

/-- The state the handlers run in: the collaborators' state, the file-scope
pointer `Config`, and the log of collaborator calls. -/
structure AesSt (W : Type) where
  world : W
  Config : Option XPmcDma_Config
  log : List Event

/-- Make a status-returning collaborator call and log it. -/
def invoke {W : Type} (D : Drivers W) (c : DrvCall) (s : AesSt W) : Int × AesSt W :=
  let r := D.call c s.world
  (r.1, { s with world := r.2, log := s.log ++ [Event.status c r.1] })

/-- The conversion `(u64)x`. -/
def u64 (x : Nat) : Nat := x % 2 ^ 64

/-- The expression `((u64)High << 32U) | (u64)Low`. -/
def mkAddr (Low High : Nat) : Nat := u64 (u64 High <<< 32) ||| u64 Low

/-- The macro `XSECURE_AES_DEC_KEY_SRC_MASK`. -/
def XSECURE_AES_DEC_KEY_SRC_MASK : Nat := 0x000000FF

/-- The macro `XSECURE_AES_DST_KEY_SRC_MASK`. -/
def XSECURE_AES_DST_KEY_SRC_MASK : Nat := 0x0000FF00

/-- The macro `XSECURE_AES_KEY_SIZE_MASK`. -/
def XSECURE_AES_KEY_SIZE_MASK : Nat := 0xFFFF0000


/-- The handler `XSecure_AesInit()`. -/
def XSecure_AesInit {W : Type} (K : AesConsts) (D : Drivers W) (s : AesSt W) : Int × AesSt W :=
  let Status := XST_FAILURE
  let r := D.XPmcDma_LookupConfig K.PMCDMA_0_DEVICE_ID s.world
  let s : AesSt W := { world := r.2, Config := r.1,
                       log := s.log ++ [Event.lookup K.PMCDMA_0_DEVICE_ID r.1] }
  match s.Config with
  | none => (Status, s)
  | some Cfg =>
    let (Status, s) := invoke D (.XPmcDma_CfgInitialize Cfg Cfg.BaseAddress) s
    if Status ≠ XST_SUCCESS then (Status, s) else
    invoke D .XSecure_AesInitialize s

/-- The handler `XSecure_AesOpInit(SrcAddrLow, SrcAddrHigh)`. -/
def XSecure_AesOpInit {W : Type} (K : AesConsts) (D : Drivers W)
    (SrcAddrLow SrcAddrHigh : Nat) (s : AesSt W) : Int × AesSt W :=
  let Addr := mkAddr SrcAddrLow SrcAddrHigh
  let AesParams := D.dmaAesInitOps Addr s.world
  let (Status, s) := invoke D (.XPlmi_DmaXfr Addr K.sizeof_AesInitOps K.XPLMI_PMCDMA_0) s
  if Status ≠ XST_SUCCESS then (Status, s) else
  if AesParams.OperationId = K.XSECURE_ENCRYPT then
    invoke D (.XSecure_AesEncryptInit AesParams.KeySrc AesParams.KeySize AesParams.IvAddr) s
  else
    invoke D (.XSecure_AesDecryptInit AesParams.KeySrc AesParams.KeySize AesParams.IvAddr) s

/-- The handler `XSecure_AesAadUpdate(SrcAddrLow, SrcAddrHigh, Size)`. -/
def XSecure_AesAadUpdate {W : Type} (D : Drivers W)
    (SrcAddrLow SrcAddrHigh Size : Nat) (s : AesSt W) : Int × AesSt W :=
  let Addr := mkAddr SrcAddrLow SrcAddrHigh
  invoke D (.XSecure_AesUpdateAad Addr Size) s

/-- The handler `XSecure_AesEncUpdate(SrcAddrLow, SrcAddrHigh, DstAddrLow, DstAddrHigh)`. -/
def XSecure_AesEncUpdate {W : Type} (K : AesConsts) (D : Drivers W)
    (SrcAddrLow SrcAddrHigh DstAddrLow DstAddrHigh : Nat) (s : AesSt W) : Int × AesSt W :=
  let Addr := mkAddr SrcAddrLow SrcAddrHigh
  let DstAddr := mkAddr DstAddrLow DstAddrHigh
  let InParams := D.dmaAesInParams Addr s.world
  let (Status, s) := invoke D (.XPlmi_DmaXfr Addr K.sizeof_AesInParams K.XPLMI_PMCDMA_0) s
  if Status ≠ XST_SUCCESS then (Status, s) else
  invoke D (.XSecure_AesEncryptUpdate InParams.InDataAddr DstAddr InParams.Size
    InParams.IsLast) s

/-- The handler `XSecure_AesEncFinal(DstAddrLow, DstAddrHigh)`. -/
def XSecure_AesEncFinal {W : Type} (D : Drivers W)
    (DstAddrLow DstAddrHigh : Nat) (s : AesSt W) : Int × AesSt W :=
  let Addr := mkAddr DstAddrLow DstAddrHigh
  invoke D (.XSecure_AesEncryptFinal Addr) s

/-- The handler `XSecure_AesDecUpdate(SrcAddrLow, SrcAddrHigh, DstAddrLow, DstAddrHigh)`. -/
def XSecure_AesDecUpdate {W : Type} (K : AesConsts) (D : Drivers W)
    (SrcAddrLow SrcAddrHigh DstAddrLow DstAddrHigh : Nat) (s : AesSt W) : Int × AesSt W :=
  let Addr := mkAddr SrcAddrLow SrcAddrHigh
  let DstAddr := mkAddr DstAddrLow DstAddrHigh
  let InParams := D.dmaAesInParams Addr s.world
  let (Status, s) := invoke D (.XPlmi_DmaXfr Addr K.sizeof_AesInParams K.XPLMI_PMCDMA_0) s
  if Status ≠ XST_SUCCESS then (Status, s) else
  invoke D (.XSecure_AesDecryptUpdate InParams.InDataAddr DstAddr InParams.Size
    InParams.IsLast) s

/-- The handler `XSecure_AesDecFinal(SrcAddrLow, SrcAddrHigh)`. -/
def XSecure_AesDecFinal {W : Type} (D : Drivers W)
    (SrcAddrLow SrcAddrHigh : Nat) (s : AesSt W) : Int × AesSt W :=
  let Addr := mkAddr SrcAddrLow SrcAddrHigh
  invoke D (.XSecure_AesDecryptFinal Addr) s

/-- The handler `XSecure_AesKeyZeroize(KeySrc)`. -/
def XSecure_AesKeyZeroize {W : Type} (D : Drivers W) (KeySrc : Nat) (s : AesSt W) :
    Int × AesSt W :=
  invoke D (.XSecure_AesKeyZero KeySrc) s

/-- The handler `XSecure_AesKeyWrite(KeySize, KeySrc, KeyAddrLow, KeyAddrHigh)`;
`KeySize` and `KeySrc` are `u8` parameters. -/
def XSecure_AesKeyWrite {W : Type} (D : Drivers W)
    (KeySize KeySrc KeyAddrLow KeyAddrHigh : Nat) (s : AesSt W) : Int × AesSt W :=
  let KeyAddr := mkAddr KeyAddrLow KeyAddrHigh
  invoke D (.XSecure_AesWriteKey KeySrc KeySize KeyAddr) s

/-- The handler `XSecure_AesDecryptKek(KeyInfo, IvAddrLow, IvAddrHigh)`. -/
def XSecure_AesDecryptKek {W : Type} (D : Drivers W)
    (KeyInfo IvAddrLow IvAddrHigh : Nat) (s : AesSt W) : Int × AesSt W :=
  let IvAddr := mkAddr IvAddrLow IvAddrHigh
  let DecKeySrc := KeyInfo &&& XSECURE_AES_DEC_KEY_SRC_MASK
  let DstKeySrc := KeyInfo &&& XSECURE_AES_DST_KEY_SRC_MASK
  let KeySize := KeyInfo &&& XSECURE_AES_KEY_SIZE_MASK
  invoke D (.XSecure_AesKekDecrypt DecKeySrc DstKeySrc IvAddr KeySize) s

/-- The handler `XSecure_AesSetDpaCmConfig(DpaCmCfg)`; `DpaCmCfg` is a `u8`
parameter. -/
def XSecure_AesSetDpaCmConfig {W : Type} (D : Drivers W) (DpaCmCfg : Nat) (s : AesSt W) :
    Int × AesSt W :=
  invoke D (.XSecure_AesSetDpaCm DpaCmCfg) s

/-- The handler `XSecure_AesExecuteDecKat()`. -/
def XSecure_AesExecuteDecKat {W : Type} (D : Drivers W) (s : AesSt W) : Int × AesSt W :=
  invoke D .XSecure_AesDecryptKat s

/-- The handler `XSecure_AesExecuteDecCmKat()`. -/
def XSecure_AesExecuteDecCmKat {W : Type} (D : Drivers W) (s : AesSt W) : Int × AesSt W :=
  invoke D .XSecure_AesDecryptCmKat s

/-- The conversion of a `u32` argument to a `u8` parameter. -/
def u8 (x : Nat) : Nat := x % 2 ^ 8

/-- The command record `XPlmi_Cmd`; only `CmdId` and `Payload` are used. -/
structure XPlmi_Cmd where
  CmdId : Nat
  Payload : Ptr

/-- The dispatcher `XSecure_AesIpiHandler(Cmd)`. The `switch` is a chain of
comparisons against the `case` labels in source order, which is the `switch`
when the labels are pairwise distinct (as C requires of them). -/
def XSecure_AesIpiHandler {W : Type} (K : AesConsts) (D : Drivers W) (Cmd : XPlmi_Cmd)
    (s : AesSt W) : Int × AesSt W :=
  let Pload := Cmd.Payload
  let sel := Cmd.CmdId &&& 0xFF
  if sel = K.API_AES_INIT then XSecure_AesInit K D s
  else if sel = K.API_AES_OP_INIT then XSecure_AesOpInit K D (Pload 0) (Pload 1) s
  else if sel = K.API_AES_UPDATE_AAD then XSecure_AesAadUpdate D (Pload 0) (Pload 1) (Pload 2) s
  else if sel = K.API_AES_ENCRYPT_UPDATE then
    XSecure_AesEncUpdate K D (Pload 0) (Pload 1) (Pload 2) (Pload 3) s
  else if sel = K.API_AES_ENCRYPT_FINAL then XSecure_AesEncFinal D (Pload 0) (Pload 1) s
  else if sel = K.API_AES_DECRYPT_UPDATE then
    XSecure_AesDecUpdate K D (Pload 0) (Pload 1) (Pload 2) (Pload 3) s
  else if sel = K.API_AES_DECRYPT_FINAL then XSecure_AesDecFinal D (Pload 0) (Pload 1) s
  else if sel = K.API_AES_KEY_ZERO then XSecure_AesKeyZeroize D (Pload 0) s
  else if sel = K.API_AES_WRITE_KEY then
    XSecure_AesKeyWrite D (u8 (Pload 0)) (u8 (Pload 1)) (Pload 2) (Pload 3) s
  else if sel = K.API_AES_KEK_DECRYPT then
    XSecure_AesDecryptKek D (Pload 0) (Pload 1) (Pload 2) s
  else if sel = K.API_AES_SET_DPA_CM then XSecure_AesSetDpaCmConfig D (u8 (Pload 0)) s
  else if sel = K.API_AES_DECRYPT_KAT then XSecure_AesExecuteDecKat D s
  else if sel = K.API_AES_DECRYPT_CM_KAT then XSecure_AesExecuteDecCmKat D s
  else (XST_INVALID_PARAM, s)


/-! ## Specification-side definitions -/

/-- The offsets read by the first `n` steps of a backward walk that starts at
the end of a 256-byte block: `255, 254, …, 256 - n`. -/
def downReads (n : Nat) : List Int := (List.range n).map (fun k => (255 : Int) - (k : Int))

/-- The walk has made exactly `n` steps back from the end of the block. -/
structure Walk.At (w : Walk) (n : Nat) : Prop where
  ptr : w.pad_ptr = 256 - (n : Int)
  reads : w.reads = downReads n

/-- The byte-level condition under which `RecreatePaddingAndCheck` accepts. -/
def PaddingOk (b h : Ptr) : Prop :=
  b 255 = 0x00 ∧ b 254 = 0x01 ∧ (∀ k, k < 202 → b (253 - k) = 0xFF) ∧ b 51 = 0x00 ∧
    (∀ k, k < 19 → b (50 - k) = T_padding.getD k 0) ∧ (∀ k, k < 32 → b (31 - k) = h k)

/-- The block `0x00 || 0x01 || 0xFF^202 || 0x00 || T || h`, most significant
byte first. -/
def pkcsBlock (h : Ptr) : List Nat :=
  [0x00, 0x01] ++ List.replicate 202 0xFF ++ [0x00] ++ T_padding ++ (List.range 32).map h

/-- Offset of the PPK in the certificate: header and magic word. -/
def CertLayout.ppkOffset (L : CertLayout) : Nat :=
  L.RSA_HEADER_SIZE + L.RSA_MAGIC_WORD_SIZE

/-- Offset of the SPK in the certificate: right after header, magic word, PPK
modulus, PPK modulus extension and PPK exponent. -/
def CertLayout.spkOffset (L : CertLayout) : Nat :=
  L.RSA_HEADER_SIZE + L.RSA_MAGIC_WORD_SIZE + L.RSA_PPK_MODULAR_SIZE +
    L.RSA_PPK_MODULAR_EXT_SIZE + L.RSA_PPK_EXPO_SIZE

/-- Offset of the SPK signature: right after the SPK modulus, modulus
extension and exponent. -/
def CertLayout.spkSigOffset (L : CertLayout) : Nat :=
  L.spkOffset + L.RSA_SPK_MODULAR_SIZE + L.RSA_SPK_MODULAR_EXT_SIZE + L.RSA_SPK_EXPO_SIZE

/-- The digest `hash1` of the SPK modulus, modulus extension and exponent. -/
def spkHash (P : Prims) (L : CertLayout) (CertStart : Ptr) : Ptr :=
  P.sha_256 (CertStart.add L.spkOffset)
    (L.RSA_SPK_MODULAR_SIZE + L.RSA_SPK_MODULAR_EXT_SIZE + L.RSA_SPK_EXPO_SIZE)

/-- The padding check of the SPK signature, decrypted with the key held in the
PPK variables `G`, against `hash1`. -/
def spkCheck (P : Prims) (L : CertLayout) (G : PpkCache) (CertStart : Ptr) : Int :=
  RecreatePaddingAndCheck
    (P.rsa2048_pubexp (CertStart.add L.spkSigOffset) G.PpkExp G.PpkModular G.PpkModularEx)
    (spkHash P L CertStart)

/-- The padding check of the partition signature (found `sigSize` bytes after
the start of the SPK signature), decrypted with the SPK of the certificate,
against the digest of the first `len` bytes of the partition. -/
def partitionCheck (P : Prims) (L : CertLayout) (Buffer : Ptr) (len : Nat) (CertStart : Ptr)
    (sigSize : Nat) : Int :=
  RecreatePaddingAndCheck
    (P.rsa2048_pubexp (CertStart.add (L.spkSigOffset + sigSize))
      (CertStart.add (L.spkOffset + L.RSA_SPK_MODULAR_SIZE + L.RSA_SPK_MODULAR_EXT_SIZE)).readU32
      (CertStart.add L.spkOffset)
      (CertStart.add (L.spkOffset + L.RSA_SPK_MODULAR_SIZE)))
    (P.sha_256 Buffer len)

/-- A sample digest. -/
def sampleHash : Ptr := fun i => (7 * i + 3) % 256

/-- The block that `RecreatePaddingAndCheck` expects for the digest `h`, as
the contents of `signature[0..255]`. -/
def paddedBlock (h : Ptr) : Ptr := fun j =>
  if j < 32 then h (31 - j)
  else if j < 51 then T_padding.getD (50 - j) 0
  else if j = 51 then 0x00
  else if j < 254 then 0xFF
  else if j = 254 then 0x01
  else 0x00

/-- The certificate field sizes of a 2048-bit certificate: a 4-byte header, a
60-byte magic word, 256-byte moduli and extensions, 64-byte exponent fields and
256-byte signatures (`0x6C0` bytes in all). -/
def sampleLayout : CertLayout :=
  { RSA_HEADER_SIZE := 4, RSA_MAGIC_WORD_SIZE := 60,
    RSA_PPK_MODULAR_SIZE := 256, RSA_PPK_MODULAR_EXT_SIZE := 256, RSA_PPK_EXPO_SIZE := 64,
    RSA_SPK_MODULAR_SIZE := 256, RSA_SPK_MODULAR_EXT_SIZE := 256, RSA_SPK_EXPO_SIZE := 64,
    RSA_SPK_SIGNATURE_SIZE := 256 }

/-- Sample primitives for concrete runs: a toy digest that depends on its input
and length, and a public-exponent operation that is exact for the exponent 1
(`x^1 mod m = x`) and gives the zero block for any other exponent. -/
def samplePrims : Prims :=
  { sha_256 := fun p n => fun i => (p i + n + i) % 256
    rsa2048_pubexp := fun x e _ _ => if e = 1 then x else fun _ => 0 }

/-- The SPK fields of the sample certificate: zero modulus and extension bytes
and the exponent 1. -/
def sampleSpk : Ptr := fun i => if i = 512 then 1 else 0

/-- A sample partition; it is used with `Size = 300`, so 44 bytes are hashed. -/
def sampleBuffer : Ptr := fun i => (i * i) % 256

/-- A sample certificate in `sampleLayout` whose PPK and SPK exponents are 1,
whose SPK signature is the padded digest of its SPK fields and whose partition
signature is the padded digest of the first 44 bytes of `sampleBuffer`. -/
def sampleCert : Ptr := fun j =>
  if j < 576 then 0
  else if j = 576 then 1
  else if j < 640 then 0
  else if j < 1216 then sampleSpk (j - 640)
  else if j < 1472 then paddedBlock (samplePrims.sha_256 sampleSpk 576) (j - 1216)
  else if j < 1728 then paddedBlock (samplePrims.sha_256 sampleBuffer 44) (j - 1472)
  else 0

/-- The sample certificate with one byte of its SPK signature changed. -/
def badSpkCert : Ptr := Function.update sampleCert 1300 0x00

/-- The sample certificate with one byte of its partition signature changed. -/
def badPartitionCert : Ptr := Function.update sampleCert 1600 0x00

/-- A certificate of zero bytes; its PPK exponent is 0. -/
def zeroCert : Ptr := fun _ => 0

/-- Some contents of the file-scope PPK variables. -/
def someCache : PpkCache := { PpkModular := zeroCert, PpkModularEx := zeroCert, PpkExp := 0 }

/-- The outcome `r` of a handler started in state `s` has the shape of a run in
which every collaborator call but the last reported success and the status
returned is the one in hand after the last call. -/
def Shape {W : Type} (s : AesSt W) (r : Int × AesSt W) : Prop :=
  ∃ (pre : List Event) (e : Event), r.2.log = s.log ++ (pre ++ [e]) ∧
    (∀ e' ∈ pre, e'.ok = true) ∧ r.1 = e.statusAfter ∧ (r.1 = XST_SUCCESS → e.ok = true)

/-- Sample values for the constants of the missing headers, with pairwise
distinct `case` labels. -/
def sampleConsts : AesConsts :=
  { API_AES_INIT := 1, API_AES_OP_INIT := 2, API_AES_UPDATE_AAD := 3,
    API_AES_ENCRYPT_UPDATE := 4, API_AES_ENCRYPT_FINAL := 5, API_AES_DECRYPT_UPDATE := 6,
    API_AES_DECRYPT_FINAL := 7, API_AES_KEY_ZERO := 8, API_AES_WRITE_KEY := 9,
    API_AES_KEK_DECRYPT := 10, API_AES_SET_DPA_CM := 11, API_AES_DECRYPT_KAT := 12,
    API_AES_DECRYPT_CM_KAT := 13, XSECURE_ENCRYPT := 0, PMCDMA_0_DEVICE_ID := 0,
    XPLMI_PMCDMA_0 := 256, sizeof_AesInitOps := 24, sizeof_AesInParams := 16 }

/-- Sample collaborators over a call counter: the configuration lookup knows
device 0 only, a DMA transfer from address 0 fails with status 2, and every
other call succeeds. -/
def sampleDrivers : Drivers Nat :=
  { XPmcDma_LookupConfig := fun id w =>
      (if id = 0 then some { BaseAddress := 0xF11C0000 } else none, w + 1)
    call := fun c w =>
      (match c with
        | .XPlmi_DmaXfr SrcAddr _ _ => if SrcAddr = 0 then 2 else XST_SUCCESS
        | _ => XST_SUCCESS, w + 1)
    dmaAesInitOps := fun SrcAddr _ =>
      { IvAddr := SrcAddr + 16, OperationId := SrcAddr % 2, KeySrc := 10, KeySize := 2 }
    dmaAesInParams := fun SrcAddr _ =>
      { InDataAddr := SrcAddr + 16, Size := 64, IsLast := 1 } }

/-- A state in which no collaborator call has been made. -/
def sampleSt : AesSt Nat := { world := 0, Config := none, log := [] }

/-- A command whose identifier selects `XSECURE_API_AES_OP_INIT` in
`sampleConsts` and whose payload words are all zero. -/
def sampleOpInitCmd : XPlmi_Cmd := { CmdId := 0x102, Payload := fun _ => 0 }

/-- A command whose identifier selects no handler in `sampleConsts`. -/
def sampleUnknownCmd : XPlmi_Cmd := { CmdId := 0x1FF, Payload := fun i => i + 1 }

/-- A command whose identifier selects `XSECURE_API_AES_WRITE_KEY` in
`sampleConsts`, with payload words `0x102, 0x30B, 0x1000, 0x2`. -/
def sampleWriteKeyCmd : XPlmi_Cmd :=
  { CmdId := 0x109,
    Payload := fun i => if i = 0 then 0x102 else if i = 1 then 0x30B else if i = 2 then 0x1000
      else 0x2 }

/-- Contents of the PPK variables other than `someCache`. -/
def otherCache : PpkCache := { PpkModular := sampleCert, PpkModularEx := sampleCert, PpkExp := 7 }

/-- The sample certificate with a byte of its magic word changed. -/
def sampleCertOtherMagic : Ptr := Function.update sampleCert 10 0xAB

/-- A command whose identifier selects `XSECURE_API_AES_DECRYPT_FINAL` in
`sampleConsts`, with the tag address `0x2_0000_1000` as the words `0x1000`
(low) and `0x2` (high). -/
def sampleDecFinalCmd : XPlmi_Cmd :=
  { CmdId := 0x107, Payload := fun i => if i = 0 then 0x1000 else if i = 1 then 0x2 else 0 }

/-! ## The session state of the AES driver, from the specification -/

/-- Modelled from the spec: the `operation` field of the spec's `AesSession`
(`Encrypt | Decrypt | Uninitialized`). The session lives in the AES driver
(`xsecure_aes.c`, the `XSecure_Aes*` functions the handlers call), which is not
part of the sources at hand. -/
inductive AesOperation where
  | Uninitialized
  | Encrypt
  | Decrypt
  deriving DecidableEq

/-- Modelled from the spec: what the missing AES driver keeps in `Secure_Aes`,
as far as the spec's state machine `Idle → Initialized → …` goes: whether
`Init` has moved the session out of `Idle`, and the operation selected by
`OpInit`. `calls` counts the collaborator calls made so far. -/
structure AesSession where
  initialized : Bool
  operation : AesOperation
  calls : Nat
  deriving DecidableEq

/-- What the spec leaves to the hardware: the status the engine or the DMA
reports for the `n`-th collaborator call when the session admits the call, the
DMA configuration table, and the parameter records a DMA transfer delivers. -/
structure Hardware where
  status : Nat → DrvCall → Int
  config : Nat → Option XPmcDma_Config
  initOps : Nat → XSecure_AesInitOps
  inParams : Nat → XSecure_AesInParams

/-- Modelled from the spec: the status-returning operations of the missing AES
driver, by the spec's session state machine. `Init` (`XSecure_AesInitialize`),
when the hardware reports success, moves the session to `Initialized` and
discards the previous session state. `OpInit` (`XSecure_AesEncryptInit`,
`XSecure_AesDecryptInit`) "requires `Initialized`; failure if the session was
never initialized", and otherwise selects Encrypt or Decrypt when the hardware
reports success. No other operation leaves `Idle` or selects an operation. -/
def specCall (H : Hardware) (c : DrvCall) (w : AesSession) : Int × AesSession :=
  let st := H.status w.calls c
  let w1 : AesSession := { w with calls := w.calls + 1 }
  match c with
  | .XSecure_AesInitialize =>
    if st = XST_SUCCESS then
      (st, { w1 with initialized := true, operation := AesOperation.Uninitialized })
    else (st, w1)
  | .XSecure_AesEncryptInit _ _ _ =>
    if w.initialized = false then (XST_FAILURE, w1)
    else if st = XST_SUCCESS then (st, { w1 with operation := AesOperation.Encrypt })
    else (st, w1)
  | .XSecure_AesDecryptInit _ _ _ =>
    if w.initialized = false then (XST_FAILURE, w1)
    else if st = XST_SUCCESS then (st, { w1 with operation := AesOperation.Decrypt })
    else (st, w1)
  | _ => (st, w1)

/-- Modelled from the spec: the collaborators of the handlers with the missing
AES driver following `specCall`; the configuration lookup and the DMA data are
those of the hardware `H`. -/
def specDrivers (H : Hardware) : Drivers AesSession :=
  { XPmcDma_LookupConfig := fun DeviceId w => (H.config DeviceId, { w with calls := w.calls + 1 })
    call := specCall H
    dmaAesInitOps := fun SrcAddr _ => H.initOps SrcAddr
    dmaAesInParams := fun SrcAddr _ => H.inParams SrcAddr }

/-- The state at start-up: the session is `Idle`, no operation is selected and
no collaborator call has been made. -/
def freshSt : AesSt AesSession :=
  { world := { initialized := false, operation := AesOperation.Uninitialized, calls := 0 },
    Config := none, log := [] }

/-- The state after the commands of `history` have been dispatched in order
from the state `s`. -/
def runCmds {W : Type} (K : AesConsts) (D : Drivers W) : List XPlmi_Cmd → AesSt W → AesSt W
  | [], s => s
  | Cmd :: rest, s => runCmds K D rest (XSecure_AesIpiHandler K D Cmd s).2

/-- No `XSECURE_API_AES_INIT` command among those of `history`, dispatched in
order from the state `s`, returned `XST_SUCCESS`. -/
def noInitSucceeded {W : Type} (K : AesConsts) (D : Drivers W) :
    List XPlmi_Cmd → AesSt W → Bool
  | [], _ => true
  | Cmd :: rest, s =>
    (decide (Cmd.CmdId &&& 0xFF = K.API_AES_INIT →
        (XSecure_AesIpiHandler K D Cmd s).1 ≠ XST_SUCCESS)) &&
      noInitSucceeded K D rest (XSecure_AesIpiHandler K D Cmd s).2

/-- The session has never been initialised: it is `Idle` and no operation is
selected. -/
def AesSession.Idle (w : AesSession) : Prop :=
  w.initialized = false ∧ w.operation = AesOperation.Uninitialized

/-- Sample hardware on which every admitted call succeeds but no DMA
configuration is found, so that `XSECURE_API_AES_INIT` fails. -/
def sampleHardware : Hardware :=
  { status := fun _ _ => XST_SUCCESS
    config := fun _ => none
    initOps := fun SrcAddr =>
      { IvAddr := SrcAddr + 16, OperationId := 0, KeySrc := 10, KeySize := 2 }
    inParams := fun SrcAddr => { InDataAddr := SrcAddr + 16, Size := 64, IsLast := 1 } }

/-- A command whose identifier selects `XSECURE_API_AES_INIT` in `sampleConsts`. -/
def sampleInitCmd : XPlmi_Cmd := { CmdId := 0x101, Payload := fun _ => 0 }

/-- A command whose identifier selects `XSECURE_API_AES_KEY_ZERO` in
`sampleConsts`. -/
def sampleKeyZeroCmd : XPlmi_Cmd := { CmdId := 0x108, Payload := fun _ => 10 }

/-! # Theorems -/

/-! ## Properties of `RecreatePaddingAndCheck` -/

theorem downReads_succ (n : Nat) : downReads (n + 1) = downReads n ++ [255 - (n : Int)] := by
  simp [downReads, List.range_succ]

theorem Walk.At.predec {w : Walk} {n : Nat} (h : w.At n) : w.predec.At (n + 1) := by
  constructor
  · simp only [Walk.predec, h.ptr]; push_cast; ring
  · simp only [Walk.predec, h.ptr, h.reads, downReads_succ]
    congr 2; ring

theorem Walk.At.deref_predec {w : Walk} {n : Nat} (h : w.At n) (signature : Ptr) :
    w.predec.deref signature = signature (255 - n) := by
  simp only [Walk.deref, Walk.predec, h.ptr]
  congr 1; omega

theorem checkLoop_true_iff (signature : Ptr) (expected : Nat → Nat) :
    ∀ (remaining ii n : Nat) (w : Walk), w.At n →
      ((checkLoop signature expected remaining ii w).1 = true ↔
        ∀ k, k < remaining → signature (255 - n - k) = expected (ii + k)) := by
  intro remaining
  induction remaining with
  | zero => intro ii n w _; simp [checkLoop]
  | succ r ih =>
    intro ii n w hw
    unfold checkLoop
    dsimp only
    rw [hw.deref_predec]
    by_cases hne : signature (255 - n) ≠ expected ii
    · rw [if_pos hne]
      constructor
      · intro h; cases h
      · intro h; exact absurd (by simpa using h 0 (Nat.succ_pos r)) hne
    · rw [if_neg hne, ih (ii + 1) (n + 1) w.predec hw.predec]
      have heq : signature (255 - n) = expected ii := not_not.mp hne
      constructor
      · intro h k hk
        cases k with
        | zero => simpa using heq
        | succ j =>
          have := h j (by omega)
          have e1 : 255 - n - (j + 1) = 255 - (n + 1) - j := by omega
          have e2 : ii + (j + 1) = ii + 1 + j := by omega
          rw [e1, e2]; exact this
      · intro h k hk
        have := h (k + 1) (by omega)
        have e1 : 255 - n - (k + 1) = 255 - (n + 1) - k := by omega
        have e2 : ii + (k + 1) = ii + 1 + k := by omega
        rw [← e1, ← e2]; exact this

theorem checkLoop_walk (signature : Ptr) (expected : Nat → Nat) :
    ∀ (remaining ii n : Nat) (w : Walk), w.At n →
      ∃ m, m ≤ remaining ∧ (checkLoop signature expected remaining ii w).2.At (n + m) ∧
        ((checkLoop signature expected remaining ii w).1 = true → m = remaining) := by
  intro remaining
  induction remaining with
  | zero => intro ii n w hw; exact ⟨0, le_refl _, by simpa [checkLoop] using hw, fun _ => rfl⟩
  | succ r ih =>
    intro ii n w hw
    unfold checkLoop
    dsimp only
    by_cases hne : w.predec.deref signature ≠ expected ii
    · rw [if_pos hne]
      exact ⟨1, by omega, hw.predec, fun h => by cases h⟩
    · rw [if_neg hne]
      obtain ⟨m, hm, hat, hs⟩ := ih (ii + 1) (n + 1) w.predec hw.predec
      refine ⟨m + 1, by omega, ?_, fun h => by rw [hs h]⟩
      have e : n + (m + 1) = n + 1 + m := by omega
      rw [e]; exact hat


theorem XST_FAILURE_ne_SUCCESS : XST_FAILURE ≠ XST_SUCCESS := by decide

theorem walk_core (b h : Ptr) :
    ∃ n, 1 ≤ n ∧ n ≤ 256 ∧ (RecreatePaddingAndCheckWalk b h).2 = downReads n ∧
      ((RecreatePaddingAndCheckWalk b h).1 = XST_SUCCESS → n = 256) ∧
      ((RecreatePaddingAndCheckWalk b h).1 ≠ XST_SUCCESS →
        (RecreatePaddingAndCheckWalk b h).1 = XST_FAILURE) ∧
      ((RecreatePaddingAndCheckWalk b h).1 = XST_SUCCESS ↔ PaddingOk b h) := by
  have h0 : (Walk.mk (RSA_PARTITION_SIGNATURE_SIZE : Nat) []).At 0 :=
    ⟨by simp [RSA_PARTITION_SIGNATURE_SIZE], by simp [downReads]⟩
  have h1 := h0.predec
  have h2 := h1.predec
  have d1 := h0.deref_predec b
  have d2 := h1.deref_predec b
  have i3 := checkLoop_true_iff b (fun _ => 0xFF) padlen 0 2 _ h2
  obtain ⟨m3, hm3, a3, s3⟩ := checkLoop_walk b (fun _ => 0xFF) padlen 0 2 _ h2
  have hpl : padlen = 202 := by decide
  have hT : T_padding.length = 19 := by decide
  have hH : HASHLEN = 32 := by decide
  unfold RecreatePaddingAndCheckWalk
  dsimp only
  rw [d1, d2]
  by_cases c1 : b (255 - 0) ≠ 0x00
  · rw [if_pos c1]
    refine ⟨1, by omega, by omega, h1.reads, fun e => absurd e XST_FAILURE_ne_SUCCESS,
      fun _ => rfl, ⟨fun e => absurd e XST_FAILURE_ne_SUCCESS, fun ok => absurd ok.1 c1⟩⟩
  rw [if_neg c1]
  by_cases c2 : b (255 - 1) ≠ 0x01
  · rw [if_pos c2]
    refine ⟨2, by omega, by omega, h2.reads, fun e => absurd e XST_FAILURE_ne_SUCCESS,
      fun _ => rfl, ⟨fun e => absurd e XST_FAILURE_ne_SUCCESS, fun ok => absurd ok.2.1 c2⟩⟩
  rw [if_neg c2]
  rcases hcl3 : checkLoop b (fun _ => 0xFF) padlen 0
      (Walk.predec (Walk.predec (Walk.mk (RSA_PARTITION_SIGNATURE_SIZE : Nat) []))) with ⟨ok3, w3⟩
  rw [hcl3] at i3 a3 s3
  dsimp only at i3 a3 s3 ⊢
  cases ok3 with
  | false =>
    dsimp only
    refine ⟨2 + m3, by omega, by omega, a3.reads, fun e => absurd e XST_FAILURE_ne_SUCCESS,
      fun _ => rfl, ⟨fun e => absurd e XST_FAILURE_ne_SUCCESS, fun ok => ?_⟩⟩
    have : false = true := i3.mpr (fun k hk => by
      have := ok.2.2.1 k (by omega)
      have e : 255 - 2 - k = 253 - k := by omega
      rw [e]; exact this)
    cases this
  | true =>
    dsimp only
    have hm : m3 = 202 := by rw [s3 rfl, hpl]
    subst hm
    have r3 : ∀ k, k < 202 → b (253 - k) = 0xFF := fun k hk => by
      have := i3.mp rfl k (by omega)
      have e : 255 - 2 - k = 253 - k := by omega
      rw [← e]; exact this
    have h4 := a3.predec
    have d4 := a3.deref_predec b
    rw [d4]
    by_cases c4 : b (255 - (2 + 202)) ≠ 0x00
    · rw [if_pos c4]
      refine ⟨2 + 202 + 1, by omega, by omega, h4.reads,
        fun e => absurd e XST_FAILURE_ne_SUCCESS,
        fun _ => rfl, ⟨fun e => absurd e XST_FAILURE_ne_SUCCESS, fun ok => absurd ok.2.2.2.1 c4⟩⟩
    rw [if_neg c4]
    have i5 := checkLoop_true_iff b (fun ii => T_padding.getD ii 0) T_padding.length 0 _ _ h4
    obtain ⟨m5, hm5, a5, s5⟩ :=
      checkLoop_walk b (fun ii => T_padding.getD ii 0) T_padding.length 0 _ _ h4
    rcases hcl5 : checkLoop b (fun ii => T_padding.getD ii 0) T_padding.length 0 w3.predec
      with ⟨ok5, w5⟩
    rw [hcl5] at i5 a5 s5
    dsimp only at i5 a5 s5 ⊢
    cases ok5 with
    | false =>
      dsimp only
      refine ⟨2 + 202 + 1 + m5, by omega, by omega, a5.reads,
        fun e => absurd e XST_FAILURE_ne_SUCCESS,
        fun _ => rfl, ⟨fun e => absurd e XST_FAILURE_ne_SUCCESS, fun ok => ?_⟩⟩
      have : false = true := i5.mpr (fun k hk => by
        have := ok.2.2.2.2.1 k (by omega)
        have e : 255 - (2 + 202 + 1) - k = 50 - k := by omega
        rw [e, Nat.zero_add]; exact this)
      cases this
    | true =>
      dsimp only
      have hm : m5 = 19 := by rw [s5 rfl, hT]
      subst hm
      have r5 : ∀ k, k < 19 → b (50 - k) = T_padding.getD k 0 := fun k hk => by
        have := i5.mp rfl k (by omega)
        have e : 255 - (2 + 202 + 1) - k = 50 - k := by omega
        rw [e, Nat.zero_add] at this; exact this
      have i6 := checkLoop_true_iff b h HASHLEN 0 _ _ a5
      obtain ⟨m6, hm6, a6, s6⟩ := checkLoop_walk b h HASHLEN 0 _ _ a5
      rcases hcl6 : checkLoop b h HASHLEN 0 w5 with ⟨ok6, w6⟩
      rw [hcl6] at i6 a6 s6
      dsimp only at i6 a6 s6 ⊢
      cases ok6 with
      | false =>
        dsimp only
        refine ⟨2 + 202 + 1 + 19 + m6, by omega, by omega, a6.reads,
          fun e => absurd e XST_FAILURE_ne_SUCCESS,
          fun _ => rfl, ⟨fun e => absurd e XST_FAILURE_ne_SUCCESS, fun ok => ?_⟩⟩
        have : false = true := i6.mpr (fun k hk => by
          have := ok.2.2.2.2.2 k (by omega)
          have e : 255 - (2 + 202 + 1 + 19) - k = 31 - k := by omega
          rw [e, Nat.zero_add]; exact this)
        cases this
      | true =>
        dsimp only
        have hm : m6 = 32 := by rw [s6 rfl, hH]
        subst hm
        have r6 : ∀ k, k < 32 → b (31 - k) = h k := fun k hk => by
          have := i6.mp rfl k (by omega)
          have e : 255 - (2 + 202 + 1 + 19) - k = 31 - k := by omega
          rw [e, Nat.zero_add] at this; exact this
        refine ⟨2 + 202 + 1 + 19 + 32, by omega, by omega, a6.reads, fun _ => rfl,
          fun ne => absurd rfl ne, ⟨fun _ => ?_, fun _ => rfl⟩⟩
        exact ⟨not_not.mp c1, not_not.mp c2, r3, not_not.mp c4, r5, r6⟩


theorem map_range_add {α : Type} (f : Nat → α) (a c : Nat) :
    (List.range (a + c)).map f = (List.range a).map f ++ (List.range c).map (fun k => f (a + k)) := by
  rw [List.range_add, List.map_append, List.map_map]; rfl

theorem append_eq_append_iff_length {α : Type} {s₁ s₂ t₁ t₂ : List α}
    (hl : s₁.length = s₂.length) : s₁ ++ t₁ = s₂ ++ t₂ ↔ s₁ = s₂ ∧ t₁ = t₂ :=
  ⟨fun e => List.append_inj e hl, fun ⟨e1, e2⟩ => by rw [e1, e2]⟩

theorem map_range_eq_iff {α : Type} (f g : Nat → α) (n : Nat) :
    (List.range n).map f = (List.range n).map g ↔ ∀ k, k < n → f k = g k := by
  rw [List.map_inj_left]
  constructor
  · intro hh k hk; exact hh k (List.mem_range.mpr hk)
  · intro hh k hk; exact hh k (List.mem_range.mp hk)

theorem reversed_block_split (b : Ptr) :
    ((List.range 256).map b).reverse =
      [b 255, b 254] ++ ((List.range 202).map (fun k => b (253 - k)) ++
        ([b 51] ++ ((List.range 19).map (fun k => b (50 - k)) ++
          (List.range 32).map (fun k => b (31 - k))))) := by
  rw [← List.map_reverse, List.range_eq_range', List.reverse_range', List.map_map]
  show (List.range (2 + (202 + (1 + (19 + 32))))).map _ = _
  rw [map_range_add, map_range_add, map_range_add, map_range_add]
  refine congrArg₂ (· ++ ·) rfl (congrArg₂ (· ++ ·) ?_ (congrArg₂ (· ++ ·) rfl
    (congrArg₂ (· ++ ·) ?_ ?_)))
  · rw [map_range_eq_iff]; intro k hk
    show b (0 + 256 - 1 - (2 + k)) = b (253 - k)
    congr 1; omega
  · rw [map_range_eq_iff]; intro k hk
    show b (0 + 256 - 1 - (2 + (202 + (1 + k)))) = b (50 - k)
    congr 1; omega
  · rw [map_range_eq_iff]; intro k hk
    show b (0 + 256 - 1 - (2 + (202 + (1 + (19 + k))))) = b (31 - k)
    congr 1; omega

theorem paddingOk_iff_reverse (b h : Ptr) :
    PaddingOk b h ↔ (List.range 256).map b = (pkcsBlock h).reverse := by
  rw [← List.reverse_eq_iff, reversed_block_split]
  have eT : T_padding = (List.range 19).map (fun k => T_padding.getD k 0) := by decide
  have eF : List.replicate 202 (0xFF : Nat) = (List.range 202).map (fun _ => 0xFF) := by
    rw [List.map_const', List.length_range]
  unfold pkcsBlock PaddingOk
  rw [eF, eT]
  simp only [List.append_assoc]
  constructor
  · rintro ⟨p1, p2, p3, p4, p5, p6⟩
    rw [p1, p2, p4]
    refine congrArg₂ (· ++ ·) rfl (congrArg₂ (· ++ ·) ?_ (congrArg₂ (· ++ ·) rfl
      (congrArg₂ (· ++ ·) ?_ ?_)))
    · exact (map_range_eq_iff _ _ _).mpr p3
    · exact (map_range_eq_iff _ _ _).mpr p5
    · exact (map_range_eq_iff _ _ _).mpr p6
  · intro e
    obtain ⟨e1, e⟩ := List.append_inj e rfl
    obtain ⟨e2, e⟩ := List.append_inj e (by simp only [List.length_map])
    obtain ⟨e3, e⟩ := List.append_inj e rfl
    obtain ⟨e4, e5⟩ := List.append_inj e (by simp only [List.length_map])
    have a1 : b 255 = 0 := by injection e1
    have a2 : b 254 = 1 := by
      injection e1 with _ t; injection t
    have a3 : b 51 = 0 := by injection e3
    exact ⟨a1, a2, (map_range_eq_iff _ _ _).mp e2, a3, (map_range_eq_iff _ _ _).mp e4,
      (map_range_eq_iff _ _ _).mp e5⟩


theorem RecreatePaddingAndCheck_eq_success_iff (b h : Ptr) :
    RecreatePaddingAndCheck b h = XST_SUCCESS ↔ PaddingOk b h := by
  obtain ⟨_, _, _, _, _, _, hiff⟩ := walk_core b h
  exact hiff

theorem RecreatePaddingAndCheck_failure_of_ne (b h : Ptr)
    (hne : RecreatePaddingAndCheck b h ≠ XST_SUCCESS) :
    RecreatePaddingAndCheck b h = XST_FAILURE := by
  obtain ⟨_, _, _, _, _, hf, _⟩ := walk_core b h
  exact hf hne

/-- C2: `RecreatePaddingAndCheck(b, h)` returns `XST_SUCCESS` exactly when
`b[255] = 0x00`, `b[254] = 0x01`, `b[52..253]` are all `0xFF`, `b[51] = 0x00`,
`b[50 - i] = T_padding[i]` for `i < 19` and `b[31 - i] = h[i]` for `i < 32`;
otherwise it returns `XST_FAILURE`. Equivalently `b[0..255]` is the reversal of
`0x00 || 0x01 || 0xFF^202 || 0x00 || T_padding || h`. The walk reads offsets
`255, 254, …` downwards, stops at the first mismatch, never reads an offset
twice or below `0`, and reads all of `255 … 0` when it accepts. -/
theorem RecreatePaddingAndCheck_accepts_iff (b h : Ptr) :
    (RecreatePaddingAndCheck b h = XST_SUCCESS ↔
      (b 255 = 0x00 ∧ b 254 = 0x01 ∧ (∀ j, 52 ≤ j → j ≤ 253 → b j = 0xFF) ∧ b 51 = 0x00 ∧
        (∀ i, i < 19 → b (50 - i) = T_padding.getD i 0) ∧
        (∀ i, i < 32 → b (31 - i) = h i))) ∧
    (RecreatePaddingAndCheck b h ≠ XST_SUCCESS → RecreatePaddingAndCheck b h = XST_FAILURE) ∧
    (RecreatePaddingAndCheck b h = XST_SUCCESS ↔
      (List.range 256).map b =
        ([0x00, 0x01] ++ List.replicate 202 0xFF ++ [0x00] ++ T_padding ++
          (List.range 32).map h).reverse) ∧
    (RecreatePaddingAndCheck b h = XST_SUCCESS →
      (RecreatePaddingAndCheckWalk b h).2 =
        (List.range 256).map (fun k => (255 : Int) - (k : Int))) ∧
    (∃ n, 1 ≤ n ∧ n ≤ 256 ∧
      (RecreatePaddingAndCheckWalk b h).2 =
        (List.range n).map (fun k => (255 : Int) - (k : Int))) ∧
    (RSA_PARTITION_SIGNATURE_SIZE = 256 ∧ padlen = 202 ∧ T_padding.length = 19 ∧
      HASHLEN = 32) := by
  obtain ⟨n, hn1, hn2, hreads, hsucc, hfail, hiff⟩ := walk_core b h
  refine ⟨?_, hfail, ?_, ?_, ⟨n, hn1, hn2, hreads⟩, by decide⟩
  · rw [RecreatePaddingAndCheck_eq_success_iff]
    unfold PaddingOk
    constructor
    · rintro ⟨p1, p2, p3, p4, p5, p6⟩
      refine ⟨p1, p2, fun j h1 h2 => ?_, p4, p5, p6⟩
      have := p3 (253 - j) (by omega)
      have e : 253 - (253 - j) = j := by omega
      rw [e] at this; exact this
    · rintro ⟨p1, p2, p3, p4, p5, p6⟩
      exact ⟨p1, p2, fun k hk => p3 (253 - k) (by omega) (by omega), p4, p5, p6⟩
  · rw [RecreatePaddingAndCheck_eq_success_iff, paddingOk_iff_reverse]; rfl
  · intro hs
    have := hsucc hs
    subst this
    exact hreads

/-- C3: if `RecreatePaddingAndCheck(b, h)` accepts, then changing any one of the
256 bytes of `b` to a different value makes it return `XST_FAILURE`. -/
theorem RecreatePaddingAndCheck_rejects_single_byte_change (b h : Ptr) (i v : Nat)
    (hacc : RecreatePaddingAndCheck b h = XST_SUCCESS) (hi : i < 256) (hv : v ≠ b i) :
    RecreatePaddingAndCheck (Function.update b i v) h = XST_FAILURE := by
  apply RecreatePaddingAndCheck_failure_of_ne
  intro hacc2
  rw [RecreatePaddingAndCheck_eq_success_iff, paddingOk_iff_reverse] at hacc hacc2
  have e := hacc2.trans hacc.symm
  have := (map_range_eq_iff _ _ _).mp e i hi
  rw [Function.update_same] at this
  exact hv this

set_option maxRecDepth 100000 in
/-- C3 (witness): the padded block of `sampleHash` is accepted, and with its byte 40
(a `T_padding` byte, `0x65`) set to `0x31` it is rejected. -/
theorem RecreatePaddingAndCheck_rejects_single_byte_change_witness :
    RecreatePaddingAndCheck (paddedBlock sampleHash) sampleHash = XST_SUCCESS ∧
    40 < 256 ∧ 0x31 ≠ paddedBlock sampleHash 40 ∧
    RecreatePaddingAndCheck (Function.update (paddedBlock sampleHash) 40 0x31) sampleHash
      = XST_FAILURE :=
  ⟨by decide, by decide, by decide,
   RecreatePaddingAndCheck_rejects_single_byte_change (paddedBlock sampleHash) sampleHash 40 0x31
     (by decide) (by decide) (by decide)⟩


/-! ## Properties of `AuthenticatePartition` -/

theorem Ptr.add_add (p : Ptr) (a c : Nat) : (p.add a).add c = p.add (a + c) := by
  funext i; simp [Ptr.add, Nat.add_assoc]

theorem partitionHashLen_of_le (Size : Nat) (h1 : 256 ≤ Size) (h2 : Size < 2 ^ 32) :
    partitionHashLen Size = Size - 256 := by
  unfold partitionHashLen RSA_PARTITION_SIGNATURE_SIZE
  norm_num at h2 ⊢
  omega


theorem AuthenticatePartitionLog_of_spk_fail (P : Prims) (L : CertLayout) (G : PpkCache)
    (Buffer : Ptr) (Size : Nat) (CertStart : Ptr)
    (hfail : spkCheck P L G CertStart ≠ XST_SUCCESS) :
    AuthenticatePartitionLog P L G Buffer Size CertStart =
      (XST_FAILURE,
        [PrimCall.sha_256 (CertStart.add L.spkOffset)
           (L.RSA_SPK_MODULAR_EXT_SIZE + L.RSA_SPK_EXPO_SIZE + L.RSA_SPK_MODULAR_SIZE),
         PrimCall.rsa2048_pubexp (CertStart.add L.spkSigOffset) G.PpkExp G.PpkModular
           G.PpkModularEx]) := by
  have hsz : L.RSA_SPK_MODULAR_SIZE + L.RSA_SPK_MODULAR_EXT_SIZE + L.RSA_SPK_EXPO_SIZE =
      L.RSA_SPK_MODULAR_EXT_SIZE + L.RSA_SPK_EXPO_SIZE + L.RSA_SPK_MODULAR_SIZE := by omega
  unfold spkCheck spkHash CertLayout.spkSigOffset CertLayout.spkOffset at hfail
  rw [hsz] at hfail
  unfold AuthenticatePartitionLog
  simp only [Ptr.add_add, CertLayout.spkSigOffset, CertLayout.spkOffset]
  rw [if_pos hfail, RecreatePaddingAndCheck_failure_of_ne _ _ hfail]
  rfl

theorem AuthenticatePartitionLog_of_spk_ok (P : Prims) (L : CertLayout) (G : PpkCache)
    (Buffer : Ptr) (Size : Nat) (CertStart : Ptr)
    (hok : spkCheck P L G CertStart = XST_SUCCESS) :
    AuthenticatePartitionLog P L G Buffer Size CertStart =
      (partitionCheck P L Buffer (partitionHashLen Size) CertStart L.RSA_SPK_SIGNATURE_SIZE,
        [PrimCall.sha_256 (CertStart.add L.spkOffset)
           (L.RSA_SPK_MODULAR_EXT_SIZE + L.RSA_SPK_EXPO_SIZE + L.RSA_SPK_MODULAR_SIZE),
         PrimCall.rsa2048_pubexp (CertStart.add L.spkSigOffset) G.PpkExp G.PpkModular
           G.PpkModularEx,
         PrimCall.rsa2048_pubexp (CertStart.add (L.spkSigOffset + L.RSA_SPK_SIGNATURE_SIZE))
           (CertStart.add
             (L.spkOffset + L.RSA_SPK_MODULAR_SIZE + L.RSA_SPK_MODULAR_EXT_SIZE)).readU32
           (CertStart.add L.spkOffset) (CertStart.add (L.spkOffset + L.RSA_SPK_MODULAR_SIZE)),
         PrimCall.sha_256 Buffer (partitionHashLen Size)]) := by
  have hsz : L.RSA_SPK_MODULAR_SIZE + L.RSA_SPK_MODULAR_EXT_SIZE + L.RSA_SPK_EXPO_SIZE =
      L.RSA_SPK_MODULAR_EXT_SIZE + L.RSA_SPK_EXPO_SIZE + L.RSA_SPK_MODULAR_SIZE := by omega
  unfold spkCheck spkHash CertLayout.spkSigOffset CertLayout.spkOffset at hok
  rw [hsz] at hok
  unfold AuthenticatePartitionLog partitionCheck
  simp only [Ptr.add_add, CertLayout.spkSigOffset, CertLayout.spkOffset]
  rw [if_neg (not_not.mpr hok)]
  rfl


theorem SetPpk_fields (L : CertLayout) (CertStart : Ptr) (G0 : PpkCache) :
    (SetPpk L CertStart G0).PpkModular = CertStart.add L.ppkOffset ∧
    (SetPpk L CertStart G0).PpkModularEx =
      CertStart.add (L.ppkOffset + L.RSA_PPK_MODULAR_SIZE) ∧
    (SetPpk L CertStart G0).PpkExp =
      (CertStart.add
        (L.ppkOffset + L.RSA_PPK_MODULAR_SIZE + L.RSA_PPK_MODULAR_EXT_SIZE)).readU32 := by
  simp only [SetPpk, Ptr.add_add, CertLayout.ppkOffset, and_self]

theorem AuthenticatePartition_eq_failure_of_ne (P : Prims) (L : CertLayout) (G : PpkCache)
    (Buffer : Ptr) (Size : Nat) (CertStart : Ptr)
    (hne : AuthenticatePartition P L G Buffer Size CertStart ≠ XST_SUCCESS) :
    AuthenticatePartition P L G Buffer Size CertStart = XST_FAILURE := by
  unfold AuthenticatePartition at hne ⊢
  by_cases hs : spkCheck P L G CertStart = XST_SUCCESS
  · rw [AuthenticatePartitionLog_of_spk_ok P L G Buffer Size CertStart hs] at hne ⊢
    exact RecreatePaddingAndCheck_failure_of_ne _ _ hne
  · rw [AuthenticatePartitionLog_of_spk_fail P L G Buffer Size CertStart hs]

/-- C1: with the PPK variables set by `SetPpk(CertStart)`, 256-byte signatures
and `256 ≤ Size < 2^32`, `AuthenticatePartition(Buffer, Size, CertStart)`
returns `XST_SUCCESS` exactly when (1) `RecreatePaddingAndCheck` accepts the SPK
signature (the bytes right after the SPK exponent field) decrypted with the PPK
exponent, modulus and modulus extension of the certificate, against the digest
of the SPK modulus, modulus extension and exponent bytes, and (2) it accepts
the partition signature (the bytes 256 after the start of the SPK signature)
decrypted with the SPK exponent, modulus and modulus extension, against the
digest of `Buffer[0 .. Size - 256)`; in every other case it returns
`XST_FAILURE`. -/
theorem AuthenticatePartition_success_iff (P : Prims) (L : CertLayout) (G0 : PpkCache)
    (Buffer : Ptr) (Size : Nat) (CertStart : Ptr)
    (hsig : L.RSA_SPK_SIGNATURE_SIZE = 256) (hSize : 256 ≤ Size) (hu32 : Size < 2 ^ 32) :
    (AuthenticatePartition P L (SetPpk L CertStart G0) Buffer Size CertStart = XST_SUCCESS ↔
      RecreatePaddingAndCheck
          (P.rsa2048_pubexp (CertStart.add L.spkSigOffset)
            (CertStart.add
              (L.ppkOffset + L.RSA_PPK_MODULAR_SIZE + L.RSA_PPK_MODULAR_EXT_SIZE)).readU32
            (CertStart.add L.ppkOffset)
            (CertStart.add (L.ppkOffset + L.RSA_PPK_MODULAR_SIZE)))
          (P.sha_256 (CertStart.add L.spkOffset)
            (L.RSA_SPK_MODULAR_SIZE + L.RSA_SPK_MODULAR_EXT_SIZE + L.RSA_SPK_EXPO_SIZE))
        = XST_SUCCESS ∧
      RecreatePaddingAndCheck
          (P.rsa2048_pubexp (CertStart.add (L.spkSigOffset + 256))
            (CertStart.add
              (L.spkOffset + L.RSA_SPK_MODULAR_SIZE + L.RSA_SPK_MODULAR_EXT_SIZE)).readU32
            (CertStart.add L.spkOffset)
            (CertStart.add (L.spkOffset + L.RSA_SPK_MODULAR_SIZE)))
          (P.sha_256 Buffer (Size - 256))
        = XST_SUCCESS) ∧
    (AuthenticatePartition P L (SetPpk L CertStart G0) Buffer Size CertStart ≠ XST_SUCCESS →
      AuthenticatePartition P L (SetPpk L CertStart G0) Buffer Size CertStart = XST_FAILURE) := by
  refine ⟨?_, AuthenticatePartition_eq_failure_of_ne P L _ Buffer Size CertStart⟩
  obtain ⟨g1, g2, g3⟩ := SetPpk_fields L CertStart G0
  have hlen := partitionHashLen_of_le Size hSize hu32
  rw [← g1, ← g2, ← g3]
  show _ ↔ spkCheck P L (SetPpk L CertStart G0) CertStart = XST_SUCCESS ∧
    partitionCheck P L Buffer (Size - 256) CertStart 256 = XST_SUCCESS
  unfold AuthenticatePartition
  by_cases hs : spkCheck P L (SetPpk L CertStart G0) CertStart = XST_SUCCESS
  · rw [AuthenticatePartitionLog_of_spk_ok P L _ Buffer Size CertStart hs, hlen, hsig]
    exact ⟨fun h => ⟨hs, h⟩, fun h => h.2⟩
  · rw [AuthenticatePartitionLog_of_spk_fail P L _ Buffer Size CertStart hs]
    exact ⟨fun h => absurd h XST_FAILURE_ne_SUCCESS, fun h => absurd h.1 hs⟩

set_option maxRecDepth 100000 in
/-- C1 (witness): on the sample certificate and partition both checks pass and
`AuthenticatePartition` returns `XST_SUCCESS`. -/
theorem AuthenticatePartition_success_iff_witness :
    (sampleLayout.RSA_SPK_SIGNATURE_SIZE = 256 ∧ 256 ≤ 300 ∧ 300 < 2 ^ 32) ∧
    AuthenticatePartition samplePrims sampleLayout (SetPpk sampleLayout sampleCert someCache)
      sampleBuffer 300 sampleCert = XST_SUCCESS :=
  ⟨⟨rfl, by decide, by decide⟩,
   (AuthenticatePartition_success_iff samplePrims sampleLayout someCache sampleBuffer 300
      sampleCert rfl (by decide) (by decide)).1.mpr ⟨by decide, by decide⟩⟩


/-- C4: when the padding check of the SPK signature (decrypted with the key in
the PPK variables) against `hash1` fails, `AuthenticatePartition` returns
`XST_FAILURE` and the only calls it has made to the primitives are the one
`sha_256` over the SPK fields and the one `rsa2048_pubexp` with the PPK: the
partition is not hashed and `rsa2048_pubexp` is not called with the SPK. -/
theorem AuthenticatePartition_stops_on_spk_failure (P : Prims) (L : CertLayout)
    (G : PpkCache) (Buffer : Ptr) (Size : Nat) (CertStart : Ptr)
    (hfail : RecreatePaddingAndCheck
        (P.rsa2048_pubexp (CertStart.add L.spkSigOffset) G.PpkExp G.PpkModular G.PpkModularEx)
        (P.sha_256 (CertStart.add L.spkOffset)
          (L.RSA_SPK_MODULAR_SIZE + L.RSA_SPK_MODULAR_EXT_SIZE + L.RSA_SPK_EXPO_SIZE))
      ≠ XST_SUCCESS) :
    AuthenticatePartition P L G Buffer Size CertStart = XST_FAILURE ∧
    (AuthenticatePartitionLog P L G Buffer Size CertStart).2 =
      [PrimCall.sha_256 (CertStart.add L.spkOffset)
         (L.RSA_SPK_MODULAR_EXT_SIZE + L.RSA_SPK_EXPO_SIZE + L.RSA_SPK_MODULAR_SIZE),
       PrimCall.rsa2048_pubexp (CertStart.add L.spkSigOffset) G.PpkExp G.PpkModular
         G.PpkModularEx] ∧
    ((AuthenticatePartitionLog P L G Buffer Size CertStart).2.filter PrimCall.isSha).length = 1 ∧
    ((AuthenticatePartitionLog P L G Buffer Size CertStart).2.filter PrimCall.isRsa).length = 1 := by
  have hf : spkCheck P L G CertStart ≠ XST_SUCCESS := hfail
  unfold AuthenticatePartition
  rw [AuthenticatePartitionLog_of_spk_fail P L G Buffer Size CertStart hf]
  exact ⟨rfl, rfl, rfl, rfl⟩

set_option maxRecDepth 100000 in
/-- C4 (witness): a run on the certificate with a corrupted SPK signature. -/
theorem AuthenticatePartition_stops_on_spk_failure_witness :
    spkCheck samplePrims sampleLayout (SetPpk sampleLayout badSpkCert someCache) badSpkCert
      ≠ XST_SUCCESS ∧
    AuthenticatePartition samplePrims sampleLayout (SetPpk sampleLayout badSpkCert someCache)
      sampleBuffer 300 badSpkCert = XST_FAILURE ∧
    ((AuthenticatePartitionLog samplePrims sampleLayout
        (SetPpk sampleLayout badSpkCert someCache) sampleBuffer 300 badSpkCert).2.filter
      PrimCall.isSha).length = 1 ∧
    ((AuthenticatePartitionLog samplePrims sampleLayout
        (SetPpk sampleLayout badSpkCert someCache) sampleBuffer 300 badSpkCert).2.filter
      PrimCall.isRsa).length = 1 :=
  have h := AuthenticatePartition_stops_on_spk_failure samplePrims sampleLayout
    (SetPpk sampleLayout badSpkCert someCache) sampleBuffer 300 badSpkCert (by decide)
  ⟨by decide, h.1, h.2.2.1, h.2.2.2⟩

/-- C5 (as stated, refuted): a run whose SPK check fails and a run whose SPK
check passes and whose partition check fails return the same value. -/
theorem AuthenticatePartition_failure_codes_coincide :
    spkCheck samplePrims sampleLayout (SetPpk sampleLayout badSpkCert someCache) badSpkCert
      ≠ XST_SUCCESS ∧
    spkCheck samplePrims sampleLayout (SetPpk sampleLayout badPartitionCert someCache)
      badPartitionCert = XST_SUCCESS ∧
    partitionCheck samplePrims sampleLayout sampleBuffer (partitionHashLen 300)
      badPartitionCert sampleLayout.RSA_SPK_SIGNATURE_SIZE ≠ XST_SUCCESS ∧
    AuthenticatePartition samplePrims sampleLayout (SetPpk sampleLayout badSpkCert someCache)
        sampleBuffer 300 badSpkCert =
      AuthenticatePartition samplePrims sampleLayout
        (SetPpk sampleLayout badPartitionCert someCache) sampleBuffer 300 badPartitionCert := by
  set_option maxRecDepth 100000 in decide

/-- C5 (amended): both authenticity failures are reported with the one value
`XST_FAILURE`: it is returned when the SPK check fails, and also when the SPK
check passes and the partition check fails. -/
theorem AuthenticatePartition_failure_code (P : Prims) (L : CertLayout) (G : PpkCache)
    (Buffer : Ptr) (Size : Nat) (CertStart : Ptr) :
    (spkCheck P L G CertStart ≠ XST_SUCCESS →
      AuthenticatePartition P L G Buffer Size CertStart = XST_FAILURE) ∧
    (spkCheck P L G CertStart = XST_SUCCESS →
      partitionCheck P L Buffer (partitionHashLen Size) CertStart L.RSA_SPK_SIGNATURE_SIZE
        ≠ XST_SUCCESS →
      AuthenticatePartition P L G Buffer Size CertStart = XST_FAILURE) := by
  constructor
  · intro hs
    unfold AuthenticatePartition
    rw [AuthenticatePartitionLog_of_spk_fail P L G Buffer Size CertStart hs]
  · intro hs hp
    apply AuthenticatePartition_eq_failure_of_ne
    unfold AuthenticatePartition
    rw [AuthenticatePartitionLog_of_spk_ok P L G Buffer Size CertStart hs]
    exact hp

set_option maxRecDepth 100000 in
/-- C5 (witness): `XST_FAILURE` on the certificate with a corrupted SPK signature
and on the certificate with a corrupted partition signature. -/
theorem AuthenticatePartition_failure_code_witness :
    (spkCheck samplePrims sampleLayout (SetPpk sampleLayout badSpkCert someCache) badSpkCert
      ≠ XST_SUCCESS ∧
     AuthenticatePartition samplePrims sampleLayout (SetPpk sampleLayout badSpkCert someCache)
      sampleBuffer 300 badSpkCert = XST_FAILURE) ∧
    (spkCheck samplePrims sampleLayout (SetPpk sampleLayout badPartitionCert someCache)
      badPartitionCert = XST_SUCCESS ∧
     partitionCheck samplePrims sampleLayout sampleBuffer (partitionHashLen 300)
      badPartitionCert sampleLayout.RSA_SPK_SIGNATURE_SIZE ≠ XST_SUCCESS ∧
     AuthenticatePartition samplePrims sampleLayout
      (SetPpk sampleLayout badPartitionCert someCache) sampleBuffer 300 badPartitionCert
        = XST_FAILURE) :=
  ⟨⟨by decide,
    (AuthenticatePartition_failure_code samplePrims sampleLayout
      (SetPpk sampleLayout badSpkCert someCache) sampleBuffer 300 badSpkCert).1 (by decide)⟩,
   ⟨by decide, by decide,
    (AuthenticatePartition_failure_code samplePrims sampleLayout
      (SetPpk sampleLayout badPartitionCert someCache) sampleBuffer 300 badPartitionCert).2
      (by decide) (by decide)⟩⟩

/-- C6 (as stated, refuted): for one and the same `Buffer`, `Size` and
`CertStart`, `AuthenticatePartition` succeeds when the PPK variables were set
by `SetPpk(CertStart)` and fails when they were set by `SetPpk` of another
certificate, or hold other values. -/
theorem AuthenticatePartition_depends_on_cached_ppk :
    AuthenticatePartition samplePrims sampleLayout (SetPpk sampleLayout sampleCert someCache)
      sampleBuffer 300 sampleCert = XST_SUCCESS ∧
    AuthenticatePartition samplePrims sampleLayout (SetPpk sampleLayout zeroCert someCache)
      sampleBuffer 300 sampleCert = XST_FAILURE ∧
    AuthenticatePartition samplePrims sampleLayout someCache sampleBuffer 300 sampleCert
      = XST_FAILURE := by
  set_option maxRecDepth 100000 in decide

/-- C6 (amended): `AuthenticatePartition` does not load the PPK; it decrypts
the SPK signature with the current contents of `PpkExp`, `PpkModular` and
`PpkModularEx`. `SetPpk(CertStart)` sets these to the modulus at offset
header + magic, the modulus extension after it and the 4-byte exponent after
that, whatever they held before, so after `SetPpk(CertStart)` (the order of
`AuthenticateApp`) the result does not depend on the earlier contents. -/
theorem AuthenticatePartition_uses_cached_ppk (P : Prims) (L : CertLayout) (G : PpkCache)
    (Buffer : Ptr) (Size : Nat) (CertStart : Ptr) :
    (AuthenticatePartitionLog P L G Buffer Size CertStart).2.get? 1 =
      some (PrimCall.rsa2048_pubexp (CertStart.add L.spkSigOffset) G.PpkExp G.PpkModular
        G.PpkModularEx) ∧
    ((SetPpk L CertStart G).PpkModular =
        CertStart.add (L.RSA_HEADER_SIZE + L.RSA_MAGIC_WORD_SIZE) ∧
      (SetPpk L CertStart G).PpkModularEx =
        CertStart.add (L.RSA_HEADER_SIZE + L.RSA_MAGIC_WORD_SIZE + L.RSA_PPK_MODULAR_SIZE) ∧
      (SetPpk L CertStart G).PpkExp =
        (CertStart.add (L.RSA_HEADER_SIZE + L.RSA_MAGIC_WORD_SIZE + L.RSA_PPK_MODULAR_SIZE +
          L.RSA_PPK_MODULAR_EXT_SIZE)).readU32) ∧
    (∀ G' : PpkCache,
      AuthenticatePartition P L (SetPpk L CertStart G) Buffer Size CertStart =
        AuthenticatePartition P L (SetPpk L CertStart G') Buffer Size CertStart) ∧
    AuthenticateApp P L G Buffer Size CertStart =
      AuthenticatePartition P L (SetPpk L CertStart G) Buffer Size CertStart := by
  refine ⟨?_, SetPpk_fields L CertStart G, fun G' => rfl, rfl⟩
  by_cases hs : spkCheck P L G CertStart = XST_SUCCESS
  · rw [AuthenticatePartitionLog_of_spk_ok P L G Buffer Size CertStart hs]; rfl
  · rw [AuthenticatePartitionLog_of_spk_fail P L G Buffer Size CertStart hs]; rfl

/-- C7 (as stated, refuted): in the scenario `BlockSize = 256`,
`T_PADDING` length `19`, `HashLen = 32` the code's `padlen` is not
`256 - 2 - 19 - 32`, and no value of `RSA_BYTE_PAD_LENGTH` makes `padlen` both
`256 - 2 - 19 - 32` and `202`. -/
theorem padlen_ne_block_minus_2_19_32 :
    padlen ≠ RSA_PARTITION_SIGNATURE_SIZE - 2 - 19 - 32 ∧
    ¬ ∃ bytePad : Nat, padlenExpr 256 bytePad 19 32 = 256 - 2 - 19 - 32 ∧
        padlenExpr 256 bytePad 19 32 = 202 := by
  refine ⟨by decide, ?_⟩
  rintro ⟨bytePad, h1, h2⟩
  rw [h2] at h1
  exact absurd h1 (by decide)

/-- C7 (amended): `padlen` is `RSA_PARTITION_SIGNATURE_SIZE - RSA_BYTE_PAD_LENGTH -
RSA_T_PAD_LENGTH - HASHLEN`; in the scenario `256`, `19`, `32` it is `202`
exactly when `RSA_BYTE_PAD_LENGTH` is `3` (the bytes `0x00`, `0x01` and the
`0x00` separator), so `padlen = 256 - 3 - 19 - 32 = 202`, and 202 is the number
of iterations of the `0xFF` loop of an accepting run. -/
theorem padlen_eq_202 :
    padlen = padlenExpr RSA_PARTITION_SIGNATURE_SIZE RSA_BYTE_PAD_LENGTH RSA_T_PAD_LENGTH
      HASHLEN ∧
    (∀ sigSize bytePad tPad hashLen : Nat, bytePad + tPad + hashLen ≤ sigSize →
      sigSize < 2 ^ 32 → padlenExpr sigSize bytePad tPad hashLen
        = sigSize - bytePad - tPad - hashLen) ∧
    (∀ bytePad : Nat, bytePad < 2 ^ 31 → (padlenExpr 256 bytePad 19 32 = 202 ↔ bytePad = 3)) ∧
    padlen = 256 - 3 - 19 - 32 ∧ padlen = 202 ∧
    (∀ b h : Ptr, RecreatePaddingAndCheck b h = XST_SUCCESS →
      ∀ k, k < padlen → b (253 - k) = 0xFF) := by
  refine ⟨rfl, ?_, ?_, by decide, by decide, ?_⟩
  · intro sigSize bytePad tPad hashLen h1 h2
    unfold padlenExpr
    norm_num at h2 ⊢
    omega
  · intro bytePad hb
    unfold padlenExpr
    norm_num at hb ⊢
    omega
  · intro b h hacc k hk
    have hp : padlen = 202 := by decide
    rw [hp] at hk
    exact ((RecreatePaddingAndCheck_eq_success_iff b h).mp hacc).2.2.1 k hk

set_option maxRecDepth 100000 in
/-- C7 (witness): the scenario `256`, `3`, `19`, `32`, and an accepted block whose
byte `253 - 40` of the `0xFF` run is `0xFF`. -/
theorem padlen_eq_202_witness :
    (3 + 19 + 32 ≤ 256 ∧ 256 < 2 ^ 32 ∧ padlenExpr 256 3 19 32 = 256 - 3 - 19 - 32) ∧
    (RecreatePaddingAndCheck (paddedBlock sampleHash) sampleHash = XST_SUCCESS ∧
      40 < padlen ∧ paddedBlock sampleHash (253 - 40) = 0xFF) :=
  ⟨⟨by decide, by decide, padlen_eq_202.2.1 256 3 19 32 (by decide) (by decide)⟩,
   ⟨by decide, by decide, padlen_eq_202.2.2.2.2.2 (paddedBlock sampleHash) sampleHash
     (by decide) 40 (by decide)⟩⟩


/-! ## Properties of the AES IPI handlers -/

theorem invoke_shape {W : Type} (D : Drivers W) (c : DrvCall) (s : AesSt W) :
    Shape s (invoke D c s) :=
  ⟨[], Event.status c (D.call c s.world).1, rfl, fun _ h => absurd h (List.not_mem_nil _), rfl,
    fun h => decide_eq_true h⟩

theorem invoke_shape_after {W : Type} (D : Drivers W) (c1 c2 : DrvCall) (s : AesSt W)
    (h1 : (invoke D c1 s).1 = XST_SUCCESS) :
    Shape s (invoke D c2 (invoke D c1 s).2) := by
  refine ⟨[Event.status c1 (D.call c1 s.world).1],
    Event.status c2 (D.call c2 (invoke D c1 s).2.world).1, ?_, ?_, rfl,
    fun h => decide_eq_true h⟩
  · simp [invoke]
  · intro e he
    rw [List.mem_singleton] at he
    subst he
    exact decide_eq_true h1

theorem Shape.extend {W : Type} {s s1 : AesSt W} {r : Int × AesSt W} (pre : List Event)
    (hlog : s1.log = s.log ++ pre) (hpre : ∀ e ∈ pre, e.ok = true) (h : Shape s1 r) :
    Shape s r := by
  obtain ⟨pre1, e, h1, h2, h3, h4⟩ := h
  refine ⟨pre ++ pre1, e, ?_, ?_, h3, h4⟩
  · rw [h1, hlog]; simp only [List.append_assoc]
  · intro e' he'
    rcases List.mem_append.mp he' with hm | hm
    · exact hpre _ hm
    · exact h2 _ hm

theorem XSecure_AesInit_shape {W : Type} (K : AesConsts) (D : Drivers W) (s : AesSt W) :
    Shape s (XSecure_AesInit K D s) := by
  unfold XSecure_AesInit
  dsimp only
  cases hcfg : (D.XPmcDma_LookupConfig K.PMCDMA_0_DEVICE_ID s.world).1 with
  | none =>
    dsimp only
    exact ⟨[], Event.lookup K.PMCDMA_0_DEVICE_ID none, rfl,
      fun _ h => absurd h (List.not_mem_nil _), rfl, fun h => absurd h XST_FAILURE_ne_SUCCESS⟩
  | some Cfg =>
    dsimp only
    have hpre : ∀ e ∈ [Event.lookup K.PMCDMA_0_DEVICE_ID (some Cfg)], e.ok = true := by
      intro e he
      rw [List.mem_singleton] at he
      subst he; rfl
    split
    · exact Shape.extend _ rfl hpre (invoke_shape D _ _)
    · rename_i hok
      exact Shape.extend _ rfl hpre (invoke_shape_after D _ _ _ (not_not.mp hok))

theorem XSecure_AesOpInit_shape {W : Type} (K : AesConsts) (D : Drivers W) (lo hi : Nat)
    (s : AesSt W) : Shape s (XSecure_AesOpInit K D lo hi s) := by
  unfold XSecure_AesOpInit
  dsimp only
  split
  · exact invoke_shape D _ s
  · rename_i hok
    split
    · exact invoke_shape_after D _ _ s (not_not.mp hok)
    · exact invoke_shape_after D _ _ s (not_not.mp hok)

theorem XSecure_AesEncUpdate_shape {W : Type} (K : AesConsts) (D : Drivers W)
    (a b c d : Nat) (s : AesSt W) : Shape s (XSecure_AesEncUpdate K D a b c d s) := by
  unfold XSecure_AesEncUpdate
  dsimp only
  split
  · exact invoke_shape D _ s
  · rename_i hok
    exact invoke_shape_after D _ _ s (not_not.mp hok)

theorem XSecure_AesDecUpdate_shape {W : Type} (K : AesConsts) (D : Drivers W)
    (a b c d : Nat) (s : AesSt W) : Shape s (XSecure_AesDecUpdate K D a b c d s) := by
  unfold XSecure_AesDecUpdate
  dsimp only
  split
  · exact invoke_shape D _ s
  · rename_i hok
    exact invoke_shape_after D _ _ s (not_not.mp hok)

theorem XSecure_AesIpiHandler_shape {W : Type} (K : AesConsts) (D : Drivers W)
    (Cmd : XPlmi_Cmd) (s : AesSt W) :
    Shape s (XSecure_AesIpiHandler K D Cmd s) ∨
      (Cmd.CmdId &&& 0xFF ∉ K.apiIds ∧ XSecure_AesIpiHandler K D Cmd s = (XST_INVALID_PARAM, s)) := by
  unfold XSecure_AesIpiHandler
  dsimp only
  by_cases h0 : Cmd.CmdId &&& 0xFF = K.API_AES_INIT
  · rw [if_pos h0]; exact Or.inl (XSecure_AesInit_shape K D s)
  rw [if_neg h0]
  by_cases h1 : Cmd.CmdId &&& 0xFF = K.API_AES_OP_INIT
  · rw [if_pos h1]; exact Or.inl (XSecure_AesOpInit_shape K D _ _ s)
  rw [if_neg h1]
  by_cases h2 : Cmd.CmdId &&& 0xFF = K.API_AES_UPDATE_AAD
  · rw [if_pos h2]; exact Or.inl (invoke_shape D _ s)
  rw [if_neg h2]
  by_cases h3 : Cmd.CmdId &&& 0xFF = K.API_AES_ENCRYPT_UPDATE
  · rw [if_pos h3]; exact Or.inl (XSecure_AesEncUpdate_shape K D _ _ _ _ s)
  rw [if_neg h3]
  by_cases h4 : Cmd.CmdId &&& 0xFF = K.API_AES_ENCRYPT_FINAL
  · rw [if_pos h4]; exact Or.inl (invoke_shape D _ s)
  rw [if_neg h4]
  by_cases h5 : Cmd.CmdId &&& 0xFF = K.API_AES_DECRYPT_UPDATE
  · rw [if_pos h5]; exact Or.inl (XSecure_AesDecUpdate_shape K D _ _ _ _ s)
  rw [if_neg h5]
  by_cases h6 : Cmd.CmdId &&& 0xFF = K.API_AES_DECRYPT_FINAL
  · rw [if_pos h6]; exact Or.inl (invoke_shape D _ s)
  rw [if_neg h6]
  by_cases h7 : Cmd.CmdId &&& 0xFF = K.API_AES_KEY_ZERO
  · rw [if_pos h7]; exact Or.inl (invoke_shape D _ s)
  rw [if_neg h7]
  by_cases h8 : Cmd.CmdId &&& 0xFF = K.API_AES_WRITE_KEY
  · rw [if_pos h8]; exact Or.inl (invoke_shape D _ s)
  rw [if_neg h8]
  by_cases h9 : Cmd.CmdId &&& 0xFF = K.API_AES_KEK_DECRYPT
  · rw [if_pos h9]; exact Or.inl (invoke_shape D _ s)
  rw [if_neg h9]
  by_cases h10 : Cmd.CmdId &&& 0xFF = K.API_AES_SET_DPA_CM
  · rw [if_pos h10]; exact Or.inl (invoke_shape D _ s)
  rw [if_neg h10]
  by_cases h11 : Cmd.CmdId &&& 0xFF = K.API_AES_DECRYPT_KAT
  · rw [if_pos h11]; exact Or.inl (invoke_shape D _ s)
  rw [if_neg h11]
  by_cases h12 : Cmd.CmdId &&& 0xFF = K.API_AES_DECRYPT_CM_KAT
  · rw [if_pos h12]; exact Or.inl (invoke_shape D _ s)
  rw [if_neg h12]
  refine Or.inr ⟨?_, rfl⟩
  simp only [AesConsts.apiIds, List.mem_cons, List.mem_singleton, List.not_mem_nil, or_false]
  tauto

theorem XST_INVALID_PARAM_ne_SUCCESS : XST_INVALID_PARAM ≠ XST_SUCCESS := by decide

theorem failed_event_is_last (pre0 : List Event) (e0 : Event)
    (hpre : ∀ e' ∈ pre0, e'.ok = true) (pre : List Event) (e : Event) (post : List Event)
    (hsplit : pre0 ++ [e0] = pre ++ e :: post) (hbad : e.ok = false) :
    post = [] ∧ e = e0 := by
  rcases List.eq_nil_or_concat post with hnil | ⟨L, l, hL⟩
  · subst hnil
    have h2 := List.append_inj_right' hsplit rfl
    injection h2 with h3 _
    exact ⟨rfl, h3.symm⟩
  · subst hL
    have e1 : pre ++ e :: L.concat l = (pre ++ e :: L) ++ [l] := by simp
    rw [e1] at hsplit
    have h2 := List.append_inj_left' hsplit rfl
    have hmem : e ∈ pre0 := by rw [h2]; simp
    rw [hpre e hmem] at hbad
    cases hbad

theorem Shape.conclusions {W : Type} {s : AesSt W} {r : Int × AesSt W} (h : Shape s r) :
    ∃ es : List Event, r.2.log = s.log ++ es ∧ es ≠ [] ∧
      (r.1 = XST_SUCCESS → ∀ e ∈ es, e.ok = true) ∧
      (∀ pre c st post, es = pre ++ Event.status c st :: post → st ≠ XST_SUCCESS →
        post = [] ∧ r.1 = st) ∧
      (∀ pre id post, es = pre ++ Event.lookup id none :: post →
        post = [] ∧ r.1 = XST_FAILURE) := by
  obtain ⟨pre0, e0, hlog, hpre, hst, hok⟩ := h
  refine ⟨pre0 ++ [e0], hlog, by simp, ?_, ?_, ?_⟩
  · intro hs e he
    rcases List.mem_append.mp he with hm | hm
    · exact hpre e hm
    · rw [List.mem_singleton] at hm
      rw [hm]; exact hok hs
  · intro pre c st post hsplit hne
    obtain ⟨h1, h2⟩ := failed_event_is_last pre0 e0 hpre pre _ post hsplit
      (decide_eq_false hne)
    rw [hst, ← h2]
    exact ⟨h1, rfl⟩
  · intro pre id post hsplit
    obtain ⟨h1, h2⟩ := failed_event_is_last pre0 e0 hpre pre _ post hsplit rfl
    rw [hst, ← h2]
    exact ⟨h1, rfl⟩

/-- C8: while `XSecure_AesIpiHandler` handles a command it returns
`XST_SUCCESS` only if every collaborator call it made reported success; a
status-returning call that reports a status other than `XST_SUCCESS` is the
last call made and its status is the one returned; a `NULL` configuration
lookup is the last call made and `XST_FAILURE` is returned. A command with a
recognised identifier makes at least one collaborator call. -/
theorem XSecure_AesIpiHandler_no_error_downgraded {W : Type} (K : AesConsts) (D : Drivers W)
    (Cmd : XPlmi_Cmd) (s : AesSt W) :
    ∃ es : List Event,
      (XSecure_AesIpiHandler K D Cmd s).2.log = s.log ++ es ∧
      (Cmd.CmdId &&& 0xFF ∈ K.apiIds → es ≠ []) ∧
      ((XSecure_AesIpiHandler K D Cmd s).1 = XST_SUCCESS → ∀ e ∈ es, e.ok = true) ∧
      (∀ pre c st post, es = pre ++ Event.status c st :: post → st ≠ XST_SUCCESS →
        post = [] ∧ (XSecure_AesIpiHandler K D Cmd s).1 = st) ∧
      (∀ pre id post, es = pre ++ Event.lookup id none :: post →
        post = [] ∧ (XSecure_AesIpiHandler K D Cmd s).1 = XST_FAILURE) := by
  rcases XSecure_AesIpiHandler_shape K D Cmd s with hshape | ⟨hnot, hdef⟩
  · obtain ⟨es, h1, h2, h3, h4, h5⟩ := hshape.conclusions
    exact ⟨es, h1, fun _ => h2, h3, h4, h5⟩
  · rw [hdef]
    refine ⟨[], by simp, fun hin => absurd hin hnot, fun hs => absurd hs XST_INVALID_PARAM_ne_SUCCESS, ?_, ?_⟩
    · intro pre c st post hsplit
      exact absurd hsplit (by simp)
    · intro pre id post hsplit
      exact absurd hsplit (by simp)

theorem apiIds_get_ne (K : AesConsts) (hnd : K.apiIds.Nodup) (i j : Fin 13) (hij : i ≠ j) :
    K.apiIds.get ⟨i.1, i.2⟩ ≠ K.apiIds.get ⟨j.1, j.2⟩ := by
  intro h
  have := (hnd.get_inj_iff).mp h
  apply hij
  exact Fin.ext (Fin.mk.inj this)

/-- C9: the dispatcher selects on `CmdId & 0xFF`, that is `CmdId` modulo 256.
If that value is none of the thirteen `case` labels, the handler returns
`XST_INVALID_PARAM` and leaves the state as it was: no collaborator call is
logged and the collaborators' state and `Config` are unchanged. If it is one
of the (pairwise distinct) labels, the run is exactly the run of the handler
bound to that label, on the payload words `Pload[0]`, `Pload[1]`, … in order
(converted to `u8` where the handler's parameter is a `u8`). -/
theorem XSecure_AesIpiHandler_dispatch {W : Type} (K : AesConsts) (D : Drivers W)
    (Cmd : XPlmi_Cmd) (s : AesSt W) :
    (Cmd.CmdId &&& 0xFF = Cmd.CmdId % 256) ∧
    (Cmd.CmdId % 256 ∉ K.apiIds →
      XSecure_AesIpiHandler K D Cmd s = (XST_INVALID_PARAM, s)) ∧
    (K.apiIds.Nodup →
      (Cmd.CmdId % 256 = K.API_AES_INIT →
        XSecure_AesIpiHandler K D Cmd s = XSecure_AesInit K D s) ∧
      (Cmd.CmdId % 256 = K.API_AES_OP_INIT →
        XSecure_AesIpiHandler K D Cmd s = XSecure_AesOpInit K D (Cmd.Payload 0) (Cmd.Payload 1) s) ∧
      (Cmd.CmdId % 256 = K.API_AES_UPDATE_AAD →
        XSecure_AesIpiHandler K D Cmd s = XSecure_AesAadUpdate D (Cmd.Payload 0) (Cmd.Payload 1) (Cmd.Payload 2) s) ∧
      (Cmd.CmdId % 256 = K.API_AES_ENCRYPT_UPDATE →
        XSecure_AesIpiHandler K D Cmd s = XSecure_AesEncUpdate K D (Cmd.Payload 0) (Cmd.Payload 1) (Cmd.Payload 2) (Cmd.Payload 3) s) ∧
      (Cmd.CmdId % 256 = K.API_AES_ENCRYPT_FINAL →
        XSecure_AesIpiHandler K D Cmd s = XSecure_AesEncFinal D (Cmd.Payload 0) (Cmd.Payload 1) s) ∧
      (Cmd.CmdId % 256 = K.API_AES_DECRYPT_UPDATE →
        XSecure_AesIpiHandler K D Cmd s = XSecure_AesDecUpdate K D (Cmd.Payload 0) (Cmd.Payload 1) (Cmd.Payload 2) (Cmd.Payload 3) s) ∧
      (Cmd.CmdId % 256 = K.API_AES_DECRYPT_FINAL →
        XSecure_AesIpiHandler K D Cmd s = XSecure_AesDecFinal D (Cmd.Payload 0) (Cmd.Payload 1) s) ∧
      (Cmd.CmdId % 256 = K.API_AES_KEY_ZERO →
        XSecure_AesIpiHandler K D Cmd s = XSecure_AesKeyZeroize D (Cmd.Payload 0) s) ∧
      (Cmd.CmdId % 256 = K.API_AES_WRITE_KEY →
        XSecure_AesIpiHandler K D Cmd s = XSecure_AesKeyWrite D (Cmd.Payload 0 % 256) (Cmd.Payload 1 % 256) (Cmd.Payload 2)
          (Cmd.Payload 3) s) ∧
      (Cmd.CmdId % 256 = K.API_AES_KEK_DECRYPT →
        XSecure_AesIpiHandler K D Cmd s = XSecure_AesDecryptKek D (Cmd.Payload 0) (Cmd.Payload 1) (Cmd.Payload 2) s) ∧
      (Cmd.CmdId % 256 = K.API_AES_SET_DPA_CM →
        XSecure_AesIpiHandler K D Cmd s = XSecure_AesSetDpaCmConfig D (Cmd.Payload 0 % 256) s) ∧
      (Cmd.CmdId % 256 = K.API_AES_DECRYPT_KAT →
        XSecure_AesIpiHandler K D Cmd s = XSecure_AesExecuteDecKat D s) ∧
      (Cmd.CmdId % 256 = K.API_AES_DECRYPT_CM_KAT →
        XSecure_AesIpiHandler K D Cmd s = XSecure_AesExecuteDecCmKat D s)) := by
  have hsel : Cmd.CmdId &&& 0xFF = Cmd.CmdId % 256 := Nat.and_pow_two_sub_one_eq_mod _ 8
  refine ⟨hsel, ?_, ?_⟩
  · unfold XSecure_AesIpiHandler
    dsimp only
    rw [hsel]
    generalize Cmd.CmdId % 256 = sel
    intro hnot
    simp only [AesConsts.apiIds, List.mem_cons, List.mem_singleton, List.not_mem_nil,
      or_false, not_or] at hnot
    rw [if_neg (show ¬ sel = K.API_AES_INIT by tauto)]
    rw [if_neg (show ¬ sel = K.API_AES_OP_INIT by tauto)]
    rw [if_neg (show ¬ sel = K.API_AES_UPDATE_AAD by tauto)]
    rw [if_neg (show ¬ sel = K.API_AES_ENCRYPT_UPDATE by tauto)]
    rw [if_neg (show ¬ sel = K.API_AES_ENCRYPT_FINAL by tauto)]
    rw [if_neg (show ¬ sel = K.API_AES_DECRYPT_UPDATE by tauto)]
    rw [if_neg (show ¬ sel = K.API_AES_DECRYPT_FINAL by tauto)]
    rw [if_neg (show ¬ sel = K.API_AES_KEY_ZERO by tauto)]
    rw [if_neg (show ¬ sel = K.API_AES_WRITE_KEY by tauto)]
    rw [if_neg (show ¬ sel = K.API_AES_KEK_DECRYPT by tauto)]
    rw [if_neg (show ¬ sel = K.API_AES_SET_DPA_CM by tauto)]
    rw [if_neg (show ¬ sel = K.API_AES_DECRYPT_KAT by tauto)]
    rw [if_neg (show ¬ sel = K.API_AES_DECRYPT_CM_KAT by tauto)]
  · unfold XSecure_AesIpiHandler
    dsimp only
    rw [hsel]
    generalize Cmd.CmdId % 256 = sel
    intro hnd
    refine ⟨?_, ?_, ?_, ?_, ?_, ?_, ?_, ?_, ?_, ?_, ?_, ?_, ?_⟩
    · intro h
      subst h
      rw [if_pos rfl]
    · intro h
      subst h
      rw [if_neg (show ¬ K.API_AES_OP_INIT = K.API_AES_INIT from
        apiIds_get_ne K hnd 1 0 (by decide))]
      rw [if_pos rfl]
    · intro h
      subst h
      rw [if_neg (show ¬ K.API_AES_UPDATE_AAD = K.API_AES_INIT from
        apiIds_get_ne K hnd 2 0 (by decide))]
      rw [if_neg (show ¬ K.API_AES_UPDATE_AAD = K.API_AES_OP_INIT from
        apiIds_get_ne K hnd 2 1 (by decide))]
      rw [if_pos rfl]
    · intro h
      subst h
      rw [if_neg (show ¬ K.API_AES_ENCRYPT_UPDATE = K.API_AES_INIT from
        apiIds_get_ne K hnd 3 0 (by decide))]
      rw [if_neg (show ¬ K.API_AES_ENCRYPT_UPDATE = K.API_AES_OP_INIT from
        apiIds_get_ne K hnd 3 1 (by decide))]
      rw [if_neg (show ¬ K.API_AES_ENCRYPT_UPDATE = K.API_AES_UPDATE_AAD from
        apiIds_get_ne K hnd 3 2 (by decide))]
      rw [if_pos rfl]
    · intro h
      subst h
      rw [if_neg (show ¬ K.API_AES_ENCRYPT_FINAL = K.API_AES_INIT from
        apiIds_get_ne K hnd 4 0 (by decide))]
      rw [if_neg (show ¬ K.API_AES_ENCRYPT_FINAL = K.API_AES_OP_INIT from
        apiIds_get_ne K hnd 4 1 (by decide))]
      rw [if_neg (show ¬ K.API_AES_ENCRYPT_FINAL = K.API_AES_UPDATE_AAD from
        apiIds_get_ne K hnd 4 2 (by decide))]
      rw [if_neg (show ¬ K.API_AES_ENCRYPT_FINAL = K.API_AES_ENCRYPT_UPDATE from
        apiIds_get_ne K hnd 4 3 (by decide))]
      rw [if_pos rfl]
    · intro h
      subst h
      rw [if_neg (show ¬ K.API_AES_DECRYPT_UPDATE = K.API_AES_INIT from
        apiIds_get_ne K hnd 5 0 (by decide))]
      rw [if_neg (show ¬ K.API_AES_DECRYPT_UPDATE = K.API_AES_OP_INIT from
        apiIds_get_ne K hnd 5 1 (by decide))]
      rw [if_neg (show ¬ K.API_AES_DECRYPT_UPDATE = K.API_AES_UPDATE_AAD from
        apiIds_get_ne K hnd 5 2 (by decide))]
      rw [if_neg (show ¬ K.API_AES_DECRYPT_UPDATE = K.API_AES_ENCRYPT_UPDATE from
        apiIds_get_ne K hnd 5 3 (by decide))]
      rw [if_neg (show ¬ K.API_AES_DECRYPT_UPDATE = K.API_AES_ENCRYPT_FINAL from
        apiIds_get_ne K hnd 5 4 (by decide))]
      rw [if_pos rfl]
    · intro h
      subst h
      rw [if_neg (show ¬ K.API_AES_DECRYPT_FINAL = K.API_AES_INIT from
        apiIds_get_ne K hnd 6 0 (by decide))]
      rw [if_neg (show ¬ K.API_AES_DECRYPT_FINAL = K.API_AES_OP_INIT from
        apiIds_get_ne K hnd 6 1 (by decide))]
      rw [if_neg (show ¬ K.API_AES_DECRYPT_FINAL = K.API_AES_UPDATE_AAD from
        apiIds_get_ne K hnd 6 2 (by decide))]
      rw [if_neg (show ¬ K.API_AES_DECRYPT_FINAL = K.API_AES_ENCRYPT_UPDATE from
        apiIds_get_ne K hnd 6 3 (by decide))]
      rw [if_neg (show ¬ K.API_AES_DECRYPT_FINAL = K.API_AES_ENCRYPT_FINAL from
        apiIds_get_ne K hnd 6 4 (by decide))]
      rw [if_neg (show ¬ K.API_AES_DECRYPT_FINAL = K.API_AES_DECRYPT_UPDATE from
        apiIds_get_ne K hnd 6 5 (by decide))]
      rw [if_pos rfl]
    · intro h
      subst h
      rw [if_neg (show ¬ K.API_AES_KEY_ZERO = K.API_AES_INIT from
        apiIds_get_ne K hnd 7 0 (by decide))]
      rw [if_neg (show ¬ K.API_AES_KEY_ZERO = K.API_AES_OP_INIT from
        apiIds_get_ne K hnd 7 1 (by decide))]
      rw [if_neg (show ¬ K.API_AES_KEY_ZERO = K.API_AES_UPDATE_AAD from
        apiIds_get_ne K hnd 7 2 (by decide))]
      rw [if_neg (show ¬ K.API_AES_KEY_ZERO = K.API_AES_ENCRYPT_UPDATE from
        apiIds_get_ne K hnd 7 3 (by decide))]
      rw [if_neg (show ¬ K.API_AES_KEY_ZERO = K.API_AES_ENCRYPT_FINAL from
        apiIds_get_ne K hnd 7 4 (by decide))]
      rw [if_neg (show ¬ K.API_AES_KEY_ZERO = K.API_AES_DECRYPT_UPDATE from
        apiIds_get_ne K hnd 7 5 (by decide))]
      rw [if_neg (show ¬ K.API_AES_KEY_ZERO = K.API_AES_DECRYPT_FINAL from
        apiIds_get_ne K hnd 7 6 (by decide))]
      rw [if_pos rfl]
    · intro h
      subst h
      rw [if_neg (show ¬ K.API_AES_WRITE_KEY = K.API_AES_INIT from
        apiIds_get_ne K hnd 8 0 (by decide))]
      rw [if_neg (show ¬ K.API_AES_WRITE_KEY = K.API_AES_OP_INIT from
        apiIds_get_ne K hnd 8 1 (by decide))]
      rw [if_neg (show ¬ K.API_AES_WRITE_KEY = K.API_AES_UPDATE_AAD from
        apiIds_get_ne K hnd 8 2 (by decide))]
      rw [if_neg (show ¬ K.API_AES_WRITE_KEY = K.API_AES_ENCRYPT_UPDATE from
        apiIds_get_ne K hnd 8 3 (by decide))]
      rw [if_neg (show ¬ K.API_AES_WRITE_KEY = K.API_AES_ENCRYPT_FINAL from
        apiIds_get_ne K hnd 8 4 (by decide))]
      rw [if_neg (show ¬ K.API_AES_WRITE_KEY = K.API_AES_DECRYPT_UPDATE from
        apiIds_get_ne K hnd 8 5 (by decide))]
      rw [if_neg (show ¬ K.API_AES_WRITE_KEY = K.API_AES_DECRYPT_FINAL from
        apiIds_get_ne K hnd 8 6 (by decide))]
      rw [if_neg (show ¬ K.API_AES_WRITE_KEY = K.API_AES_KEY_ZERO from
        apiIds_get_ne K hnd 8 7 (by decide))]
      rw [if_pos rfl]
      rfl
    · intro h
      subst h
      rw [if_neg (show ¬ K.API_AES_KEK_DECRYPT = K.API_AES_INIT from
        apiIds_get_ne K hnd 9 0 (by decide))]
      rw [if_neg (show ¬ K.API_AES_KEK_DECRYPT = K.API_AES_OP_INIT from
        apiIds_get_ne K hnd 9 1 (by decide))]
      rw [if_neg (show ¬ K.API_AES_KEK_DECRYPT = K.API_AES_UPDATE_AAD from
        apiIds_get_ne K hnd 9 2 (by decide))]
      rw [if_neg (show ¬ K.API_AES_KEK_DECRYPT = K.API_AES_ENCRYPT_UPDATE from
        apiIds_get_ne K hnd 9 3 (by decide))]
      rw [if_neg (show ¬ K.API_AES_KEK_DECRYPT = K.API_AES_ENCRYPT_FINAL from
        apiIds_get_ne K hnd 9 4 (by decide))]
      rw [if_neg (show ¬ K.API_AES_KEK_DECRYPT = K.API_AES_DECRYPT_UPDATE from
        apiIds_get_ne K hnd 9 5 (by decide))]
      rw [if_neg (show ¬ K.API_AES_KEK_DECRYPT = K.API_AES_DECRYPT_FINAL from
        apiIds_get_ne K hnd 9 6 (by decide))]
      rw [if_neg (show ¬ K.API_AES_KEK_DECRYPT = K.API_AES_KEY_ZERO from
        apiIds_get_ne K hnd 9 7 (by decide))]
      rw [if_neg (show ¬ K.API_AES_KEK_DECRYPT = K.API_AES_WRITE_KEY from
        apiIds_get_ne K hnd 9 8 (by decide))]
      rw [if_pos rfl]
    · intro h
      subst h
      rw [if_neg (show ¬ K.API_AES_SET_DPA_CM = K.API_AES_INIT from
        apiIds_get_ne K hnd 10 0 (by decide))]
      rw [if_neg (show ¬ K.API_AES_SET_DPA_CM = K.API_AES_OP_INIT from
        apiIds_get_ne K hnd 10 1 (by decide))]
      rw [if_neg (show ¬ K.API_AES_SET_DPA_CM = K.API_AES_UPDATE_AAD from
        apiIds_get_ne K hnd 10 2 (by decide))]
      rw [if_neg (show ¬ K.API_AES_SET_DPA_CM = K.API_AES_ENCRYPT_UPDATE from
        apiIds_get_ne K hnd 10 3 (by decide))]
      rw [if_neg (show ¬ K.API_AES_SET_DPA_CM = K.API_AES_ENCRYPT_FINAL from
        apiIds_get_ne K hnd 10 4 (by decide))]
      rw [if_neg (show ¬ K.API_AES_SET_DPA_CM = K.API_AES_DECRYPT_UPDATE from
        apiIds_get_ne K hnd 10 5 (by decide))]
      rw [if_neg (show ¬ K.API_AES_SET_DPA_CM = K.API_AES_DECRYPT_FINAL from
        apiIds_get_ne K hnd 10 6 (by decide))]
      rw [if_neg (show ¬ K.API_AES_SET_DPA_CM = K.API_AES_KEY_ZERO from
        apiIds_get_ne K hnd 10 7 (by decide))]
      rw [if_neg (show ¬ K.API_AES_SET_DPA_CM = K.API_AES_WRITE_KEY from
        apiIds_get_ne K hnd 10 8 (by decide))]
      rw [if_neg (show ¬ K.API_AES_SET_DPA_CM = K.API_AES_KEK_DECRYPT from
        apiIds_get_ne K hnd 10 9 (by decide))]
      rw [if_pos rfl]
      rfl
    · intro h
      subst h
      rw [if_neg (show ¬ K.API_AES_DECRYPT_KAT = K.API_AES_INIT from
        apiIds_get_ne K hnd 11 0 (by decide))]
      rw [if_neg (show ¬ K.API_AES_DECRYPT_KAT = K.API_AES_OP_INIT from
        apiIds_get_ne K hnd 11 1 (by decide))]
      rw [if_neg (show ¬ K.API_AES_DECRYPT_KAT = K.API_AES_UPDATE_AAD from
        apiIds_get_ne K hnd 11 2 (by decide))]
      rw [if_neg (show ¬ K.API_AES_DECRYPT_KAT = K.API_AES_ENCRYPT_UPDATE from
        apiIds_get_ne K hnd 11 3 (by decide))]
      rw [if_neg (show ¬ K.API_AES_DECRYPT_KAT = K.API_AES_ENCRYPT_FINAL from
        apiIds_get_ne K hnd 11 4 (by decide))]
      rw [if_neg (show ¬ K.API_AES_DECRYPT_KAT = K.API_AES_DECRYPT_UPDATE from
        apiIds_get_ne K hnd 11 5 (by decide))]
      rw [if_neg (show ¬ K.API_AES_DECRYPT_KAT = K.API_AES_DECRYPT_FINAL from
        apiIds_get_ne K hnd 11 6 (by decide))]
      rw [if_neg (show ¬ K.API_AES_DECRYPT_KAT = K.API_AES_KEY_ZERO from
        apiIds_get_ne K hnd 11 7 (by decide))]
      rw [if_neg (show ¬ K.API_AES_DECRYPT_KAT = K.API_AES_WRITE_KEY from
        apiIds_get_ne K hnd 11 8 (by decide))]
      rw [if_neg (show ¬ K.API_AES_DECRYPT_KAT = K.API_AES_KEK_DECRYPT from
        apiIds_get_ne K hnd 11 9 (by decide))]
      rw [if_neg (show ¬ K.API_AES_DECRYPT_KAT = K.API_AES_SET_DPA_CM from
        apiIds_get_ne K hnd 11 10 (by decide))]
      rw [if_pos rfl]
    · intro h
      subst h
      rw [if_neg (show ¬ K.API_AES_DECRYPT_CM_KAT = K.API_AES_INIT from
        apiIds_get_ne K hnd 12 0 (by decide))]
      rw [if_neg (show ¬ K.API_AES_DECRYPT_CM_KAT = K.API_AES_OP_INIT from
        apiIds_get_ne K hnd 12 1 (by decide))]
      rw [if_neg (show ¬ K.API_AES_DECRYPT_CM_KAT = K.API_AES_UPDATE_AAD from
        apiIds_get_ne K hnd 12 2 (by decide))]
      rw [if_neg (show ¬ K.API_AES_DECRYPT_CM_KAT = K.API_AES_ENCRYPT_UPDATE from
        apiIds_get_ne K hnd 12 3 (by decide))]
      rw [if_neg (show ¬ K.API_AES_DECRYPT_CM_KAT = K.API_AES_ENCRYPT_FINAL from
        apiIds_get_ne K hnd 12 4 (by decide))]
      rw [if_neg (show ¬ K.API_AES_DECRYPT_CM_KAT = K.API_AES_DECRYPT_UPDATE from
        apiIds_get_ne K hnd 12 5 (by decide))]
      rw [if_neg (show ¬ K.API_AES_DECRYPT_CM_KAT = K.API_AES_DECRYPT_FINAL from
        apiIds_get_ne K hnd 12 6 (by decide))]
      rw [if_neg (show ¬ K.API_AES_DECRYPT_CM_KAT = K.API_AES_KEY_ZERO from
        apiIds_get_ne K hnd 12 7 (by decide))]
      rw [if_neg (show ¬ K.API_AES_DECRYPT_CM_KAT = K.API_AES_WRITE_KEY from
        apiIds_get_ne K hnd 12 8 (by decide))]
      rw [if_neg (show ¬ K.API_AES_DECRYPT_CM_KAT = K.API_AES_KEK_DECRYPT from
        apiIds_get_ne K hnd 12 9 (by decide))]
      rw [if_neg (show ¬ K.API_AES_DECRYPT_CM_KAT = K.API_AES_SET_DPA_CM from
        apiIds_get_ne K hnd 12 10 (by decide))]
      rw [if_neg (show ¬ K.API_AES_DECRYPT_CM_KAT = K.API_AES_DECRYPT_KAT from
        apiIds_get_ne K hnd 12 11 (by decide))]
      rw [if_pos rfl]

/-- C8 (witness): an `XSECURE_API_AES_OP_INIT` command whose DMA transfer fails
with status 2: the handler returns 2 and the transfer is the only call made. -/
theorem XSecure_AesIpiHandler_no_error_downgraded_witness :
    XSecure_AesIpiHandler sampleConsts sampleDrivers sampleOpInitCmd sampleSt =
      (2, { world := 1, Config := none, log := [Event.status (.XPlmi_DmaXfr 0 24 256) 2] }) ∧
    ∃ es : List Event,
      (XSecure_AesIpiHandler sampleConsts sampleDrivers sampleOpInitCmd sampleSt).2.log
        = sampleSt.log ++ es ∧
      (sampleOpInitCmd.CmdId &&& 0xFF ∈ sampleConsts.apiIds → es ≠ []) ∧
      ((XSecure_AesIpiHandler sampleConsts sampleDrivers sampleOpInitCmd sampleSt).1
        = XST_SUCCESS → ∀ e ∈ es, e.ok = true) ∧
      (∀ pre c st post, es = pre ++ Event.status c st :: post → st ≠ XST_SUCCESS →
        post = [] ∧
          (XSecure_AesIpiHandler sampleConsts sampleDrivers sampleOpInitCmd sampleSt).1 = st) ∧
      (∀ pre id post, es = pre ++ Event.lookup id none :: post →
        post = [] ∧
          (XSecure_AesIpiHandler sampleConsts sampleDrivers sampleOpInitCmd sampleSt).1
            = XST_FAILURE) :=
  ⟨rfl, XSecure_AesIpiHandler_no_error_downgraded sampleConsts sampleDrivers sampleOpInitCmd
    sampleSt⟩

/-- C9 (witness): an identifier that selects no handler, and an
`XSECURE_API_AES_WRITE_KEY` command whose first two payload words are
converted to `u8`. -/
theorem XSecure_AesIpiHandler_dispatch_witness :
    (sampleUnknownCmd.CmdId % 256 ∉ sampleConsts.apiIds ∧
      XSecure_AesIpiHandler sampleConsts sampleDrivers sampleUnknownCmd sampleSt =
        (XST_INVALID_PARAM, sampleSt)) ∧
    (sampleConsts.apiIds.Nodup ∧ sampleWriteKeyCmd.CmdId % 256 = sampleConsts.API_AES_WRITE_KEY ∧
      XSecure_AesIpiHandler sampleConsts sampleDrivers sampleWriteKeyCmd sampleSt =
        XSecure_AesKeyWrite sampleDrivers 0x02 0x0B 0x1000 0x2 sampleSt) :=
  ⟨⟨by decide,
    (XSecure_AesIpiHandler_dispatch sampleConsts sampleDrivers sampleUnknownCmd sampleSt).2.1
      (by decide)⟩,
   ⟨by decide, by decide,
    (XSecure_AesIpiHandler_dispatch sampleConsts sampleDrivers sampleWriteKeyCmd
      sampleSt).2.2 (by decide) |>.2.2.2.2.2.2.2.2.1 (by decide)⟩⟩

theorem and_shiftLeft_mask (a m k : Nat) : a &&& (m <<< k) = ((a >>> k) &&& m) <<< k := by
  apply Nat.eq_of_testBit_eq
  intro i
  simp only [Nat.testBit_and, Nat.testBit_shiftLeft, Nat.testBit_shiftRight]
  by_cases h : k ≤ i
  · have e : k + (i - k) = i := by omega
    simp [h, e]
  · simp [h]

theorem mkAddr_eq (Low High : Nat) (hl : Low < 2 ^ 32) (hh : High < 2 ^ 32) :
    mkAddr Low High = High * 2 ^ 32 + Low := by
  unfold mkAddr u64
  rw [Nat.shiftLeft_eq]
  have h1 : High % 2 ^ 64 = High := Nat.mod_eq_of_lt (by omega)
  have h2 : Low % 2 ^ 64 = Low := Nat.mod_eq_of_lt (by omega)
  have h3 : High * 2 ^ 32 % 2 ^ 64 = High * 2 ^ 32 := Nat.mod_eq_of_lt (by omega)
  rw [h1, h2, h3, Nat.mul_comm, ← Nat.mul_add_lt_is_or hl]

theorem keyInfo_fields (src dst sz : Nat) (h1 : src < 256) (h2 : dst < 256) (h3 : sz < 65536) :
    (src ||| dst <<< 8 ||| sz <<< 16) &&& XSECURE_AES_DEC_KEY_SRC_MASK = src ∧
    (src ||| dst <<< 8 ||| sz <<< 16) &&& XSECURE_AES_DST_KEY_SRC_MASK = dst * 256 ∧
    (src ||| dst <<< 8 ||| sz <<< 16) &&& XSECURE_AES_KEY_SIZE_MASK = sz * 65536 := by
  have e1 : src ||| dst <<< 8 = 2 ^ 8 * dst + src := by
    rw [Nat.or_comm, Nat.shiftLeft_eq, Nat.mul_comm, ← Nat.mul_add_lt_is_or (by omega)]
  have e2 : src ||| dst <<< 8 ||| sz <<< 16 = 2 ^ 16 * sz + (2 ^ 8 * dst + src) := by
    rw [e1, Nat.or_comm, Nat.shiftLeft_eq, Nat.mul_comm (n := sz),
      ← Nat.mul_add_lt_is_or (by omega)]
  have m1 : XSECURE_AES_DEC_KEY_SRC_MASK = 2 ^ 8 - 1 := by decide
  have m2 : XSECURE_AES_DST_KEY_SRC_MASK = (2 ^ 8 - 1) <<< 8 := by decide
  have m3 : XSECURE_AES_KEY_SIZE_MASK = (2 ^ 16 - 1) <<< 16 := by decide
  rw [e2, m1, m2, m3, and_shiftLeft_mask, and_shiftLeft_mask, Nat.and_pow_two_sub_one_eq_mod,
    Nat.and_pow_two_sub_one_eq_mod, Nat.and_pow_two_sub_one_eq_mod, Nat.shiftLeft_eq,
    Nat.shiftLeft_eq, Nat.shiftRight_eq_div_pow, Nat.shiftRight_eq_div_pow]
  norm_num
  omega

/-- What `XSecure_AesDecryptKek` hands to the driver for a `KeyInfo` built from
a source slot, a destination slot and a key size: the source slot, the
destination slot still shifted left by 8 and the key size still shifted left
by 16, with the IV address `IvAddrHigh * 2^32 + IvAddrLow`. -/
theorem XSecure_AesDecryptKek_call {W : Type} (D : Drivers W) (s : AesSt W)
    (src dst sz IvAddrLow IvAddrHigh : Nat) (h1 : src < 256) (h2 : dst < 256)
    (h3 : sz < 65536) (hl : IvAddrLow < 2 ^ 32) (hh : IvAddrHigh < 2 ^ 32) :
    ∃ st, (XSecure_AesDecryptKek D (src ||| dst <<< 8 ||| sz <<< 16) IvAddrLow IvAddrHigh s).2.log
      = s.log ++ [Event.status
          (DrvCall.XSecure_AesKekDecrypt src (dst * 256) (IvAddrHigh * 2 ^ 32 + IvAddrLow)
            (sz * 65536)) st] := by
  obtain ⟨k1, k2, k3⟩ := keyInfo_fields src dst sz h1 h2 h3
  unfold XSecure_AesDecryptKek
  dsimp only
  rw [k1, k2, k3, mkAddr_eq _ _ hl hh]
  exact ⟨_, rfl⟩

/-- C10 (the code at a failing input): for source slot `0x0A`, destination slot
`0x0B` and key size `2`, with `KeyInfo = 0x0A | (0x0B << 8) | (2 << 16)`,
`XSecure_AesDecryptKek` calls `XSecure_AesKekDecrypt` with destination key
source `0x0B00` and key size `0x20000`, not with `0x0B` and `2`. -/
theorem XSecure_AesDecryptKek_fields_not_shifted :
    (0x00020B0A : Nat) = 0x0A ||| 0x0B <<< 8 ||| 2 <<< 16 ∧
    (XSecure_AesDecryptKek sampleDrivers 0x00020B0A 0x1000 0x2 sampleSt).2.log =
      [Event.status (DrvCall.XSecure_AesKekDecrypt 0x0A 0x0B00 0x200001000 0x20000)
        XST_SUCCESS] ∧
    (XSecure_AesDecryptKek sampleDrivers 0x00020B0A 0x1000 0x2 sampleSt).2.log ≠
      [Event.status (DrvCall.XSecure_AesKekDecrypt 0x0A 0x0B 0x200001000 2) XST_SUCCESS] := by
  decide

/-! ## The certificate header and short partitions -/

theorem Ptr.add_congr_from (p q : Ptr) (n : Nat) (h : ∀ i, n ≤ i → p i = q i) :
    p.add n = q.add n := by
  funext i
  exact h (n + i) (Nat.le_add_right n i)

/-- C13: for two certificates that agree on every byte from offset
`RSA_HEADER_SIZE + RSA_MAGIC_WORD_SIZE` on (they may differ anywhere in the
header and the magic word), whatever the PPK variables held before, `SetPpk`
leaves the same PPK in them, and `AuthenticatePartition` after it returns the
same status and makes the same calls to the primitives, for every partition
buffer and size. -/
theorem AuthenticatePartition_ignores_header_and_magic (P : Prims) (L : CertLayout)
    (G1 G2 : PpkCache) (Buffer : Ptr) (Size : Nat) (Cert1 Cert2 : Ptr)
    (hsame : ∀ i, L.RSA_HEADER_SIZE + L.RSA_MAGIC_WORD_SIZE ≤ i → Cert1 i = Cert2 i) :
    SetPpk L Cert1 G1 = SetPpk L Cert2 G2 ∧
    AuthenticatePartition P L (SetPpk L Cert1 G1) Buffer Size Cert1 =
      AuthenticatePartition P L (SetPpk L Cert2 G2) Buffer Size Cert2 ∧
    AuthenticatePartitionLog P L (SetPpk L Cert1 G1) Buffer Size Cert1 =
      AuthenticatePartitionLog P L (SetPpk L Cert2 G2) Buffer Size Cert2 := by
  have hb : (Cert1.add L.RSA_HEADER_SIZE).add L.RSA_MAGIC_WORD_SIZE =
      (Cert2.add L.RSA_HEADER_SIZE).add L.RSA_MAGIC_WORD_SIZE := by
    rw [Ptr.add_add, Ptr.add_add]
    exact Ptr.add_congr_from Cert1 Cert2 _ hsame
  have hset : SetPpk L Cert1 G1 = SetPpk L Cert2 G2 := by
    simp only [SetPpk, hb]
  have hlog : AuthenticatePartitionLog P L (SetPpk L Cert1 G1) Buffer Size Cert1 =
      AuthenticatePartitionLog P L (SetPpk L Cert2 G2) Buffer Size Cert2 := by
    rw [hset]
    simp only [AuthenticatePartitionLog, hb]
  refine ⟨hset, ?_, hlog⟩
  unfold AuthenticatePartition
  rw [hlog]

set_option maxRecDepth 100000 in
/-- C13 (witness): the sample certificate and a copy with a changed magic-word
byte both authenticate the sample partition. -/
theorem AuthenticatePartition_ignores_header_and_magic_witness :
    (∀ i, sampleLayout.RSA_HEADER_SIZE + sampleLayout.RSA_MAGIC_WORD_SIZE ≤ i →
      sampleCert i = sampleCertOtherMagic i) ∧
    sampleCert 10 ≠ sampleCertOtherMagic 10 ∧
    AuthenticatePartition samplePrims sampleLayout
      (SetPpk sampleLayout sampleCertOtherMagic otherCache) sampleBuffer 300 sampleCertOtherMagic
        = XST_SUCCESS :=
  have hsame : ∀ i, sampleLayout.RSA_HEADER_SIZE + sampleLayout.RSA_MAGIC_WORD_SIZE ≤ i →
      sampleCert i = sampleCertOtherMagic i := fun i hi => by
    have h64 : 64 ≤ i := hi
    have hne : i ≠ 10 := by omega
    exact (Function.update_noteq hne 0xAB sampleCert).symm
  ⟨hsame, by decide,
   ((AuthenticatePartition_ignores_header_and_magic samplePrims sampleLayout someCache
      otherCache sampleBuffer 300 sampleCert sampleCertOtherMagic hsame).2.1).symm.trans
     (by decide)⟩

theorem partitionHashLen_of_lt (Size : Nat) (h : Size < 256) :
    partitionHashLen Size = 2 ^ 32 + Size - 256 := by
  unfold partitionHashLen RSA_PARTITION_SIGNATURE_SIZE
  norm_num
  omega

/-- C14: for `Size < 256`, when the SPK check passes, `AuthenticatePartition`
goes on to hash the partition: it makes all four calls to the primitives, the
fourth being `sha_256(Buffer, len)` with `len = (Size - 256) mod 2^32 =
2^32 + Size - 256`, which is at least `2^32 - 256`, and its result is the
padding check against that digest. For a `u32` `Size` the length handed over
is `Size - 256` exactly when `Size ≥ 256`. -/
theorem AuthenticatePartition_short_partition_length (P : Prims) (L : CertLayout)
    (G : PpkCache) (Buffer : Ptr) (Size : Nat) (CertStart : Ptr)
    (hsmall : Size < RSA_PARTITION_SIGNATURE_SIZE)
    (hspk : spkCheck P L G CertStart = XST_SUCCESS) :
    (AuthenticatePartitionLog P L G Buffer Size CertStart).2.length = 4 ∧
    (AuthenticatePartitionLog P L G Buffer Size CertStart).2.get? 3 =
      some (PrimCall.sha_256 Buffer (2 ^ 32 + Size - 256)) ∧
    2 ^ 32 - 256 ≤ 2 ^ 32 + Size - 256 ∧
    partitionHashLen Size = 2 ^ 32 + Size - 256 ∧
    AuthenticatePartition P L G Buffer Size CertStart =
      partitionCheck P L Buffer (2 ^ 32 + Size - 256) CertStart L.RSA_SPK_SIGNATURE_SIZE ∧
    (∀ Size' : Nat, Size' < 2 ^ 32 →
      (((partitionHashLen Size' : Nat) : Int) = (Size' : Int) - 256 ↔ 256 ≤ Size')) := by
  have hlen := partitionHashLen_of_lt Size hsmall
  unfold AuthenticatePartition
  rw [AuthenticatePartitionLog_of_spk_ok P L G Buffer Size CertStart hspk, hlen]
  refine ⟨rfl, rfl, by omega, rfl, rfl, ?_⟩
  intro Size' h32
  unfold partitionHashLen RSA_PARTITION_SIGNATURE_SIZE
  norm_num at h32 ⊢
  omega

set_option maxRecDepth 100000 in
/-- C14 (witness): the sample certificate with `Size = 100`: the SPK check
passes and `sha_256` is handed the length `2^32 - 156`. -/
theorem AuthenticatePartition_short_partition_length_witness :
    (100 < RSA_PARTITION_SIGNATURE_SIZE ∧
      spkCheck samplePrims sampleLayout (SetPpk sampleLayout sampleCert someCache) sampleCert
        = XST_SUCCESS) ∧
    (AuthenticatePartitionLog samplePrims sampleLayout
        (SetPpk sampleLayout sampleCert someCache) sampleBuffer 100 sampleCert).2.get? 3 =
      some (PrimCall.sha_256 sampleBuffer 4294967140) :=
  ⟨⟨by decide, by decide⟩,
   (AuthenticatePartition_short_partition_length samplePrims sampleLayout
     (SetPpk sampleLayout sampleCert someCache) sampleBuffer 100 sampleCert
     (by decide) (by decide)).2.1⟩

/-! ## Address pairs -/

theorem XSecure_AesIpiHandler_of_label {W : Type} (K : AesConsts) (D : Drivers W)
    (Cmd : XPlmi_Cmd) (s : AesSt W) (hnd : K.apiIds.Nodup) :
    (Cmd.CmdId &&& 0xFF = K.API_AES_INIT →
      XSecure_AesIpiHandler K D Cmd s = XSecure_AesInit K D s) ∧
    (Cmd.CmdId &&& 0xFF = K.API_AES_OP_INIT →
      XSecure_AesIpiHandler K D Cmd s = XSecure_AesOpInit K D (Cmd.Payload 0) (Cmd.Payload 1) s) ∧
    (Cmd.CmdId &&& 0xFF = K.API_AES_UPDATE_AAD →
      XSecure_AesIpiHandler K D Cmd s = XSecure_AesAadUpdate D (Cmd.Payload 0) (Cmd.Payload 1) (Cmd.Payload 2) s) ∧
    (Cmd.CmdId &&& 0xFF = K.API_AES_ENCRYPT_UPDATE →
      XSecure_AesIpiHandler K D Cmd s = XSecure_AesEncUpdate K D (Cmd.Payload 0) (Cmd.Payload 1) (Cmd.Payload 2) (Cmd.Payload 3) s) ∧
    (Cmd.CmdId &&& 0xFF = K.API_AES_ENCRYPT_FINAL →
      XSecure_AesIpiHandler K D Cmd s = XSecure_AesEncFinal D (Cmd.Payload 0) (Cmd.Payload 1) s) ∧
    (Cmd.CmdId &&& 0xFF = K.API_AES_DECRYPT_UPDATE →
      XSecure_AesIpiHandler K D Cmd s = XSecure_AesDecUpdate K D (Cmd.Payload 0) (Cmd.Payload 1) (Cmd.Payload 2) (Cmd.Payload 3) s) ∧
    (Cmd.CmdId &&& 0xFF = K.API_AES_DECRYPT_FINAL →
      XSecure_AesIpiHandler K D Cmd s = XSecure_AesDecFinal D (Cmd.Payload 0) (Cmd.Payload 1) s) ∧
    (Cmd.CmdId &&& 0xFF = K.API_AES_KEY_ZERO →
      XSecure_AesIpiHandler K D Cmd s = XSecure_AesKeyZeroize D (Cmd.Payload 0) s) ∧
    (Cmd.CmdId &&& 0xFF = K.API_AES_WRITE_KEY →
      XSecure_AesIpiHandler K D Cmd s = XSecure_AesKeyWrite D (u8 (Cmd.Payload 0)) (u8 (Cmd.Payload 1)) (Cmd.Payload 2)
        (Cmd.Payload 3) s) ∧
    (Cmd.CmdId &&& 0xFF = K.API_AES_KEK_DECRYPT →
      XSecure_AesIpiHandler K D Cmd s = XSecure_AesDecryptKek D (Cmd.Payload 0) (Cmd.Payload 1) (Cmd.Payload 2) s) ∧
    (Cmd.CmdId &&& 0xFF = K.API_AES_SET_DPA_CM →
      XSecure_AesIpiHandler K D Cmd s = XSecure_AesSetDpaCmConfig D (u8 (Cmd.Payload 0)) s) ∧
    (Cmd.CmdId &&& 0xFF = K.API_AES_DECRYPT_KAT →
      XSecure_AesIpiHandler K D Cmd s = XSecure_AesExecuteDecKat D s) ∧
    (Cmd.CmdId &&& 0xFF = K.API_AES_DECRYPT_CM_KAT →
      XSecure_AesIpiHandler K D Cmd s = XSecure_AesExecuteDecCmKat D s) := by
  unfold XSecure_AesIpiHandler
  dsimp only
  refine ⟨?_, ?_, ?_, ?_, ?_, ?_, ?_, ?_, ?_, ?_, ?_, ?_, ?_⟩
  · intro h
    rw [h]
    rw [if_pos rfl]
  · intro h
    rw [h]
    rw [if_neg (show ¬ K.API_AES_OP_INIT = K.API_AES_INIT from
      apiIds_get_ne K hnd 1 0 (by decide))]
    rw [if_pos rfl]
  · intro h
    rw [h]
    rw [if_neg (show ¬ K.API_AES_UPDATE_AAD = K.API_AES_INIT from
      apiIds_get_ne K hnd 2 0 (by decide))]
    rw [if_neg (show ¬ K.API_AES_UPDATE_AAD = K.API_AES_OP_INIT from
      apiIds_get_ne K hnd 2 1 (by decide))]
    rw [if_pos rfl]
  · intro h
    rw [h]
    rw [if_neg (show ¬ K.API_AES_ENCRYPT_UPDATE = K.API_AES_INIT from
      apiIds_get_ne K hnd 3 0 (by decide))]
    rw [if_neg (show ¬ K.API_AES_ENCRYPT_UPDATE = K.API_AES_OP_INIT from
      apiIds_get_ne K hnd 3 1 (by decide))]
    rw [if_neg (show ¬ K.API_AES_ENCRYPT_UPDATE = K.API_AES_UPDATE_AAD from
      apiIds_get_ne K hnd 3 2 (by decide))]
    rw [if_pos rfl]
  · intro h
    rw [h]
    rw [if_neg (show ¬ K.API_AES_ENCRYPT_FINAL = K.API_AES_INIT from
      apiIds_get_ne K hnd 4 0 (by decide))]
    rw [if_neg (show ¬ K.API_AES_ENCRYPT_FINAL = K.API_AES_OP_INIT from
      apiIds_get_ne K hnd 4 1 (by decide))]
    rw [if_neg (show ¬ K.API_AES_ENCRYPT_FINAL = K.API_AES_UPDATE_AAD from
      apiIds_get_ne K hnd 4 2 (by decide))]
    rw [if_neg (show ¬ K.API_AES_ENCRYPT_FINAL = K.API_AES_ENCRYPT_UPDATE from
      apiIds_get_ne K hnd 4 3 (by decide))]
    rw [if_pos rfl]
  · intro h
    rw [h]
    rw [if_neg (show ¬ K.API_AES_DECRYPT_UPDATE = K.API_AES_INIT from
      apiIds_get_ne K hnd 5 0 (by decide))]
    rw [if_neg (show ¬ K.API_AES_DECRYPT_UPDATE = K.API_AES_OP_INIT from
      apiIds_get_ne K hnd 5 1 (by decide))]
    rw [if_neg (show ¬ K.API_AES_DECRYPT_UPDATE = K.API_AES_UPDATE_AAD from
      apiIds_get_ne K hnd 5 2 (by decide))]
    rw [if_neg (show ¬ K.API_AES_DECRYPT_UPDATE = K.API_AES_ENCRYPT_UPDATE from
      apiIds_get_ne K hnd 5 3 (by decide))]
    rw [if_neg (show ¬ K.API_AES_DECRYPT_UPDATE = K.API_AES_ENCRYPT_FINAL from
      apiIds_get_ne K hnd 5 4 (by decide))]
    rw [if_pos rfl]
  · intro h
    rw [h]
    rw [if_neg (show ¬ K.API_AES_DECRYPT_FINAL = K.API_AES_INIT from
      apiIds_get_ne K hnd 6 0 (by decide))]
    rw [if_neg (show ¬ K.API_AES_DECRYPT_FINAL = K.API_AES_OP_INIT from
      apiIds_get_ne K hnd 6 1 (by decide))]
    rw [if_neg (show ¬ K.API_AES_DECRYPT_FINAL = K.API_AES_UPDATE_AAD from
      apiIds_get_ne K hnd 6 2 (by decide))]
    rw [if_neg (show ¬ K.API_AES_DECRYPT_FINAL = K.API_AES_ENCRYPT_UPDATE from
      apiIds_get_ne K hnd 6 3 (by decide))]
    rw [if_neg (show ¬ K.API_AES_DECRYPT_FINAL = K.API_AES_ENCRYPT_FINAL from
      apiIds_get_ne K hnd 6 4 (by decide))]
    rw [if_neg (show ¬ K.API_AES_DECRYPT_FINAL = K.API_AES_DECRYPT_UPDATE from
      apiIds_get_ne K hnd 6 5 (by decide))]
    rw [if_pos rfl]
  · intro h
    rw [h]
    rw [if_neg (show ¬ K.API_AES_KEY_ZERO = K.API_AES_INIT from
      apiIds_get_ne K hnd 7 0 (by decide))]
    rw [if_neg (show ¬ K.API_AES_KEY_ZERO = K.API_AES_OP_INIT from
      apiIds_get_ne K hnd 7 1 (by decide))]
    rw [if_neg (show ¬ K.API_AES_KEY_ZERO = K.API_AES_UPDATE_AAD from
      apiIds_get_ne K hnd 7 2 (by decide))]
    rw [if_neg (show ¬ K.API_AES_KEY_ZERO = K.API_AES_ENCRYPT_UPDATE from
      apiIds_get_ne K hnd 7 3 (by decide))]
    rw [if_neg (show ¬ K.API_AES_KEY_ZERO = K.API_AES_ENCRYPT_FINAL from
      apiIds_get_ne K hnd 7 4 (by decide))]
    rw [if_neg (show ¬ K.API_AES_KEY_ZERO = K.API_AES_DECRYPT_UPDATE from
      apiIds_get_ne K hnd 7 5 (by decide))]
    rw [if_neg (show ¬ K.API_AES_KEY_ZERO = K.API_AES_DECRYPT_FINAL from
      apiIds_get_ne K hnd 7 6 (by decide))]
    rw [if_pos rfl]
  · intro h
    rw [h]
    rw [if_neg (show ¬ K.API_AES_WRITE_KEY = K.API_AES_INIT from
      apiIds_get_ne K hnd 8 0 (by decide))]
    rw [if_neg (show ¬ K.API_AES_WRITE_KEY = K.API_AES_OP_INIT from
      apiIds_get_ne K hnd 8 1 (by decide))]
    rw [if_neg (show ¬ K.API_AES_WRITE_KEY = K.API_AES_UPDATE_AAD from
      apiIds_get_ne K hnd 8 2 (by decide))]
    rw [if_neg (show ¬ K.API_AES_WRITE_KEY = K.API_AES_ENCRYPT_UPDATE from
      apiIds_get_ne K hnd 8 3 (by decide))]
    rw [if_neg (show ¬ K.API_AES_WRITE_KEY = K.API_AES_ENCRYPT_FINAL from
      apiIds_get_ne K hnd 8 4 (by decide))]
    rw [if_neg (show ¬ K.API_AES_WRITE_KEY = K.API_AES_DECRYPT_UPDATE from
      apiIds_get_ne K hnd 8 5 (by decide))]
    rw [if_neg (show ¬ K.API_AES_WRITE_KEY = K.API_AES_DECRYPT_FINAL from
      apiIds_get_ne K hnd 8 6 (by decide))]
    rw [if_neg (show ¬ K.API_AES_WRITE_KEY = K.API_AES_KEY_ZERO from
      apiIds_get_ne K hnd 8 7 (by decide))]
    rw [if_pos rfl]
  · intro h
    rw [h]
    rw [if_neg (show ¬ K.API_AES_KEK_DECRYPT = K.API_AES_INIT from
      apiIds_get_ne K hnd 9 0 (by decide))]
    rw [if_neg (show ¬ K.API_AES_KEK_DECRYPT = K.API_AES_OP_INIT from
      apiIds_get_ne K hnd 9 1 (by decide))]
    rw [if_neg (show ¬ K.API_AES_KEK_DECRYPT = K.API_AES_UPDATE_AAD from
      apiIds_get_ne K hnd 9 2 (by decide))]
    rw [if_neg (show ¬ K.API_AES_KEK_DECRYPT = K.API_AES_ENCRYPT_UPDATE from
      apiIds_get_ne K hnd 9 3 (by decide))]
    rw [if_neg (show ¬ K.API_AES_KEK_DECRYPT = K.API_AES_ENCRYPT_FINAL from
      apiIds_get_ne K hnd 9 4 (by decide))]
    rw [if_neg (show ¬ K.API_AES_KEK_DECRYPT = K.API_AES_DECRYPT_UPDATE from
      apiIds_get_ne K hnd 9 5 (by decide))]
    rw [if_neg (show ¬ K.API_AES_KEK_DECRYPT = K.API_AES_DECRYPT_FINAL from
      apiIds_get_ne K hnd 9 6 (by decide))]
    rw [if_neg (show ¬ K.API_AES_KEK_DECRYPT = K.API_AES_KEY_ZERO from
      apiIds_get_ne K hnd 9 7 (by decide))]
    rw [if_neg (show ¬ K.API_AES_KEK_DECRYPT = K.API_AES_WRITE_KEY from
      apiIds_get_ne K hnd 9 8 (by decide))]
    rw [if_pos rfl]
  · intro h
    rw [h]
    rw [if_neg (show ¬ K.API_AES_SET_DPA_CM = K.API_AES_INIT from
      apiIds_get_ne K hnd 10 0 (by decide))]
    rw [if_neg (show ¬ K.API_AES_SET_DPA_CM = K.API_AES_OP_INIT from
      apiIds_get_ne K hnd 10 1 (by decide))]
    rw [if_neg (show ¬ K.API_AES_SET_DPA_CM = K.API_AES_UPDATE_AAD from
      apiIds_get_ne K hnd 10 2 (by decide))]
    rw [if_neg (show ¬ K.API_AES_SET_DPA_CM = K.API_AES_ENCRYPT_UPDATE from
      apiIds_get_ne K hnd 10 3 (by decide))]
    rw [if_neg (show ¬ K.API_AES_SET_DPA_CM = K.API_AES_ENCRYPT_FINAL from
      apiIds_get_ne K hnd 10 4 (by decide))]
    rw [if_neg (show ¬ K.API_AES_SET_DPA_CM = K.API_AES_DECRYPT_UPDATE from
      apiIds_get_ne K hnd 10 5 (by decide))]
    rw [if_neg (show ¬ K.API_AES_SET_DPA_CM = K.API_AES_DECRYPT_FINAL from
      apiIds_get_ne K hnd 10 6 (by decide))]
    rw [if_neg (show ¬ K.API_AES_SET_DPA_CM = K.API_AES_KEY_ZERO from
      apiIds_get_ne K hnd 10 7 (by decide))]
    rw [if_neg (show ¬ K.API_AES_SET_DPA_CM = K.API_AES_WRITE_KEY from
      apiIds_get_ne K hnd 10 8 (by decide))]
    rw [if_neg (show ¬ K.API_AES_SET_DPA_CM = K.API_AES_KEK_DECRYPT from
      apiIds_get_ne K hnd 10 9 (by decide))]
    rw [if_pos rfl]
  · intro h
    rw [h]
    rw [if_neg (show ¬ K.API_AES_DECRYPT_KAT = K.API_AES_INIT from
      apiIds_get_ne K hnd 11 0 (by decide))]
    rw [if_neg (show ¬ K.API_AES_DECRYPT_KAT = K.API_AES_OP_INIT from
      apiIds_get_ne K hnd 11 1 (by decide))]
    rw [if_neg (show ¬ K.API_AES_DECRYPT_KAT = K.API_AES_UPDATE_AAD from
      apiIds_get_ne K hnd 11 2 (by decide))]
    rw [if_neg (show ¬ K.API_AES_DECRYPT_KAT = K.API_AES_ENCRYPT_UPDATE from
      apiIds_get_ne K hnd 11 3 (by decide))]
    rw [if_neg (show ¬ K.API_AES_DECRYPT_KAT = K.API_AES_ENCRYPT_FINAL from
      apiIds_get_ne K hnd 11 4 (by decide))]
    rw [if_neg (show ¬ K.API_AES_DECRYPT_KAT = K.API_AES_DECRYPT_UPDATE from
      apiIds_get_ne K hnd 11 5 (by decide))]
    rw [if_neg (show ¬ K.API_AES_DECRYPT_KAT = K.API_AES_DECRYPT_FINAL from
      apiIds_get_ne K hnd 11 6 (by decide))]
    rw [if_neg (show ¬ K.API_AES_DECRYPT_KAT = K.API_AES_KEY_ZERO from
      apiIds_get_ne K hnd 11 7 (by decide))]
    rw [if_neg (show ¬ K.API_AES_DECRYPT_KAT = K.API_AES_WRITE_KEY from
      apiIds_get_ne K hnd 11 8 (by decide))]
    rw [if_neg (show ¬ K.API_AES_DECRYPT_KAT = K.API_AES_KEK_DECRYPT from
      apiIds_get_ne K hnd 11 9 (by decide))]
    rw [if_neg (show ¬ K.API_AES_DECRYPT_KAT = K.API_AES_SET_DPA_CM from
      apiIds_get_ne K hnd 11 10 (by decide))]
    rw [if_pos rfl]
  · intro h
    rw [h]
    rw [if_neg (show ¬ K.API_AES_DECRYPT_CM_KAT = K.API_AES_INIT from
      apiIds_get_ne K hnd 12 0 (by decide))]
    rw [if_neg (show ¬ K.API_AES_DECRYPT_CM_KAT = K.API_AES_OP_INIT from
      apiIds_get_ne K hnd 12 1 (by decide))]
    rw [if_neg (show ¬ K.API_AES_DECRYPT_CM_KAT = K.API_AES_UPDATE_AAD from
      apiIds_get_ne K hnd 12 2 (by decide))]
    rw [if_neg (show ¬ K.API_AES_DECRYPT_CM_KAT = K.API_AES_ENCRYPT_UPDATE from
      apiIds_get_ne K hnd 12 3 (by decide))]
    rw [if_neg (show ¬ K.API_AES_DECRYPT_CM_KAT = K.API_AES_ENCRYPT_FINAL from
      apiIds_get_ne K hnd 12 4 (by decide))]
    rw [if_neg (show ¬ K.API_AES_DECRYPT_CM_KAT = K.API_AES_DECRYPT_UPDATE from
      apiIds_get_ne K hnd 12 5 (by decide))]
    rw [if_neg (show ¬ K.API_AES_DECRYPT_CM_KAT = K.API_AES_DECRYPT_FINAL from
      apiIds_get_ne K hnd 12 6 (by decide))]
    rw [if_neg (show ¬ K.API_AES_DECRYPT_CM_KAT = K.API_AES_KEY_ZERO from
      apiIds_get_ne K hnd 12 7 (by decide))]
    rw [if_neg (show ¬ K.API_AES_DECRYPT_CM_KAT = K.API_AES_WRITE_KEY from
      apiIds_get_ne K hnd 12 8 (by decide))]
    rw [if_neg (show ¬ K.API_AES_DECRYPT_CM_KAT = K.API_AES_KEK_DECRYPT from
      apiIds_get_ne K hnd 12 9 (by decide))]
    rw [if_neg (show ¬ K.API_AES_DECRYPT_CM_KAT = K.API_AES_SET_DPA_CM from
      apiIds_get_ne K hnd 12 10 (by decide))]
    rw [if_neg (show ¬ K.API_AES_DECRYPT_CM_KAT = K.API_AES_DECRYPT_KAT from
      apiIds_get_ne K hnd 12 11 (by decide))]
    rw [if_pos rfl]

theorem mkAddr_facts (Low High : Nat) (hl : Low < 2 ^ 32) (hh : High < 2 ^ 32) :
    mkAddr Low High % 2 ^ 32 = Low ∧ mkAddr Low High / 2 ^ 32 = High ∧
      mkAddr Low High < 2 ^ 64 := by
  rw [mkAddr_eq Low High hl hh]
  norm_num at hl hh ⊢
  omega

theorem mkAddr_injective (Low High Low' High' : Nat) (hl : Low < 2 ^ 32) (hh : High < 2 ^ 32)
    (hl' : Low' < 2 ^ 32) (hh' : High' < 2 ^ 32) (h : mkAddr Low High = mkAddr Low' High') :
    Low = Low' ∧ High = High' := by
  obtain ⟨a1, a2, _⟩ := mkAddr_facts Low High hl hh
  obtain ⟨b1, b2, _⟩ := mkAddr_facts Low' High' hl' hh'
  rw [h] at a1 a2
  exact ⟨a1.symm.trans b1, a2.symm.trans b2⟩

/-- C12: the expression `((u64)High << 32) | (u64)Low` of the handlers is, for
32-bit `Low` and `High`, the address `High * 2^32 + Low`: its remainder modulo
`2^32` is `Low`, its quotient by `2^32` is `High`, it is below `2^64`, and it
determines `Low` and `High`. For pairwise distinct `case` labels and 32-bit
payload words, each of the eight handlers that takes an address runs with the
address `Pload[i + 1] * 2^32 + Pload[i]`: the low half is the earlier payload
word and the high half the next one. -/
theorem address_pair_forms_64_bit_address {W : Type} (K : AesConsts) (D : Drivers W)
    (Cmd : XPlmi_Cmd) (s : AesSt W) (hnd : K.apiIds.Nodup)
    (hP : ∀ i, Cmd.Payload i < 2 ^ 32) :
    (∀ Low High : Nat, Low < 2 ^ 32 → High < 2 ^ 32 →
      mkAddr Low High = High * 2 ^ 32 + Low ∧ mkAddr Low High % 2 ^ 32 = Low ∧
        mkAddr Low High / 2 ^ 32 = High ∧ mkAddr Low High < 2 ^ 64) ∧
    (∀ Low High Low' High' : Nat, Low < 2 ^ 32 → High < 2 ^ 32 → Low' < 2 ^ 32 →
      High' < 2 ^ 32 → mkAddr Low High = mkAddr Low' High' → Low = Low' ∧ High = High') ∧
    (Cmd.CmdId &&& 0xFF = K.API_AES_OP_INIT →
      XSecure_AesIpiHandler K D Cmd s =
        if (invoke D (.XPlmi_DmaXfr (Cmd.Payload 1 * 2 ^ 32 + Cmd.Payload 0)
              K.sizeof_AesInitOps K.XPLMI_PMCDMA_0) s).1 ≠ XST_SUCCESS then
          invoke D (.XPlmi_DmaXfr (Cmd.Payload 1 * 2 ^ 32 + Cmd.Payload 0)
              K.sizeof_AesInitOps K.XPLMI_PMCDMA_0) s
        else if (D.dmaAesInitOps (Cmd.Payload 1 * 2 ^ 32 + Cmd.Payload 0) s.world).OperationId
            = K.XSECURE_ENCRYPT then
          invoke D (.XSecure_AesEncryptInit
              (D.dmaAesInitOps (Cmd.Payload 1 * 2 ^ 32 + Cmd.Payload 0) s.world).KeySrc
              (D.dmaAesInitOps (Cmd.Payload 1 * 2 ^ 32 + Cmd.Payload 0) s.world).KeySize
              (D.dmaAesInitOps (Cmd.Payload 1 * 2 ^ 32 + Cmd.Payload 0) s.world).IvAddr)
            (invoke D (.XPlmi_DmaXfr (Cmd.Payload 1 * 2 ^ 32 + Cmd.Payload 0)
              K.sizeof_AesInitOps K.XPLMI_PMCDMA_0) s).2
        else
          invoke D (.XSecure_AesDecryptInit
              (D.dmaAesInitOps (Cmd.Payload 1 * 2 ^ 32 + Cmd.Payload 0) s.world).KeySrc
              (D.dmaAesInitOps (Cmd.Payload 1 * 2 ^ 32 + Cmd.Payload 0) s.world).KeySize
              (D.dmaAesInitOps (Cmd.Payload 1 * 2 ^ 32 + Cmd.Payload 0) s.world).IvAddr)
            (invoke D (.XPlmi_DmaXfr (Cmd.Payload 1 * 2 ^ 32 + Cmd.Payload 0)
              K.sizeof_AesInitOps K.XPLMI_PMCDMA_0) s).2) ∧
    (Cmd.CmdId &&& 0xFF = K.API_AES_UPDATE_AAD →
      XSecure_AesIpiHandler K D Cmd s =
        invoke D (.XSecure_AesUpdateAad (Cmd.Payload 1 * 2 ^ 32 + Cmd.Payload 0)
          (Cmd.Payload 2)) s) ∧
    (Cmd.CmdId &&& 0xFF = K.API_AES_ENCRYPT_UPDATE →
      XSecure_AesIpiHandler K D Cmd s =
        if (invoke D (.XPlmi_DmaXfr (Cmd.Payload 1 * 2 ^ 32 + Cmd.Payload 0)
              K.sizeof_AesInParams K.XPLMI_PMCDMA_0) s).1 ≠ XST_SUCCESS then
          invoke D (.XPlmi_DmaXfr (Cmd.Payload 1 * 2 ^ 32 + Cmd.Payload 0)
              K.sizeof_AesInParams K.XPLMI_PMCDMA_0) s
        else
          invoke D (.XSecure_AesEncryptUpdate
              (D.dmaAesInParams (Cmd.Payload 1 * 2 ^ 32 + Cmd.Payload 0) s.world).InDataAddr
              (Cmd.Payload 3 * 2 ^ 32 + Cmd.Payload 2)
              (D.dmaAesInParams (Cmd.Payload 1 * 2 ^ 32 + Cmd.Payload 0) s.world).Size
              (D.dmaAesInParams (Cmd.Payload 1 * 2 ^ 32 + Cmd.Payload 0) s.world).IsLast)
            (invoke D (.XPlmi_DmaXfr (Cmd.Payload 1 * 2 ^ 32 + Cmd.Payload 0)
              K.sizeof_AesInParams K.XPLMI_PMCDMA_0) s).2) ∧
    (Cmd.CmdId &&& 0xFF = K.API_AES_ENCRYPT_FINAL →
      XSecure_AesIpiHandler K D Cmd s =
        invoke D (.XSecure_AesEncryptFinal (Cmd.Payload 1 * 2 ^ 32 + Cmd.Payload 0)) s) ∧
    (Cmd.CmdId &&& 0xFF = K.API_AES_DECRYPT_UPDATE →
      XSecure_AesIpiHandler K D Cmd s =
        if (invoke D (.XPlmi_DmaXfr (Cmd.Payload 1 * 2 ^ 32 + Cmd.Payload 0)
              K.sizeof_AesInParams K.XPLMI_PMCDMA_0) s).1 ≠ XST_SUCCESS then
          invoke D (.XPlmi_DmaXfr (Cmd.Payload 1 * 2 ^ 32 + Cmd.Payload 0)
              K.sizeof_AesInParams K.XPLMI_PMCDMA_0) s
        else
          invoke D (.XSecure_AesDecryptUpdate
              (D.dmaAesInParams (Cmd.Payload 1 * 2 ^ 32 + Cmd.Payload 0) s.world).InDataAddr
              (Cmd.Payload 3 * 2 ^ 32 + Cmd.Payload 2)
              (D.dmaAesInParams (Cmd.Payload 1 * 2 ^ 32 + Cmd.Payload 0) s.world).Size
              (D.dmaAesInParams (Cmd.Payload 1 * 2 ^ 32 + Cmd.Payload 0) s.world).IsLast)
            (invoke D (.XPlmi_DmaXfr (Cmd.Payload 1 * 2 ^ 32 + Cmd.Payload 0)
              K.sizeof_AesInParams K.XPLMI_PMCDMA_0) s).2) ∧
    (Cmd.CmdId &&& 0xFF = K.API_AES_DECRYPT_FINAL →
      XSecure_AesIpiHandler K D Cmd s =
        invoke D (.XSecure_AesDecryptFinal (Cmd.Payload 1 * 2 ^ 32 + Cmd.Payload 0)) s) ∧
    (Cmd.CmdId &&& 0xFF = K.API_AES_WRITE_KEY →
      XSecure_AesIpiHandler K D Cmd s =
        invoke D (.XSecure_AesWriteKey (Cmd.Payload 1 % 256) (Cmd.Payload 0 % 256)
          (Cmd.Payload 3 * 2 ^ 32 + Cmd.Payload 2)) s) ∧
    (Cmd.CmdId &&& 0xFF = K.API_AES_KEK_DECRYPT →
      XSecure_AesIpiHandler K D Cmd s =
        invoke D (.XSecure_AesKekDecrypt (Cmd.Payload 0 &&& XSECURE_AES_DEC_KEY_SRC_MASK)
          (Cmd.Payload 0 &&& XSECURE_AES_DST_KEY_SRC_MASK)
          (Cmd.Payload 2 * 2 ^ 32 + Cmd.Payload 1)
          (Cmd.Payload 0 &&& XSECURE_AES_KEY_SIZE_MASK)) s) := by
  obtain ⟨_, d1, d2, d3, d4, d5, d6, _, d8, d9, _, _, _⟩ :=
    XSecure_AesIpiHandler_of_label K D Cmd s hnd
  have a01 := mkAddr_eq _ _ (hP 0) (hP 1)
  have a23 := mkAddr_eq _ _ (hP 2) (hP 3)
  have a12 := mkAddr_eq _ _ (hP 1) (hP 2)
  refine ⟨fun Low High hl hh => ⟨mkAddr_eq Low High hl hh, mkAddr_facts Low High hl hh⟩,
    mkAddr_injective, ?_, ?_, ?_, ?_, ?_, ?_, ?_, ?_⟩
  · intro h; rw [d1 h, ← a01]; rfl
  · intro h; rw [d2 h, ← a01]; rfl
  · intro h; rw [d3 h, ← a01, ← a23]; rfl
  · intro h; rw [d4 h, ← a01]; rfl
  · intro h; rw [d5 h, ← a01, ← a23]; rfl
  · intro h; rw [d6 h, ← a01]; rfl
  · intro h; rw [d8 h, ← a23]; rfl
  · intro h; rw [d9 h, ← a12]; rfl

/-- C12 (witness): a decrypt-final command with payload words `0x1000`, `0x2`
hands the tag address `0x2_0000_1000` to the driver. -/
theorem address_pair_forms_64_bit_address_witness :
    (sampleConsts.apiIds.Nodup ∧ (∀ i, sampleDecFinalCmd.Payload i < 2 ^ 32) ∧
      sampleDecFinalCmd.CmdId &&& 0xFF = sampleConsts.API_AES_DECRYPT_FINAL) ∧
    XSecure_AesIpiHandler sampleConsts sampleDrivers sampleDecFinalCmd sampleSt =
      invoke sampleDrivers (.XSecure_AesDecryptFinal 0x200001000) sampleSt :=
  have hP : ∀ i, sampleDecFinalCmd.Payload i < 2 ^ 32 := fun i => by
    unfold sampleDecFinalCmd
    dsimp only
    split_ifs <;> norm_num
  ⟨⟨by decide, hP, by decide⟩,
   (address_pair_forms_64_bit_address sampleConsts sampleDrivers sampleDecFinalCmd sampleSt
      (by decide) hP).2.2.2.2.2.2.2.1 (by decide)⟩

/-! ## `OpInit` before `Init` -/

theorem specCall_idle (H : Hardware) (c : DrvCall) (w : AesSession) (hw : w.Idle)
    (hc : c = DrvCall.XSecure_AesInitialize → (specCall H c w).1 ≠ XST_SUCCESS) :
    (specCall H c w).2.Idle := by
  obtain ⟨h1, h2⟩ := hw
  cases c
  case XSecure_AesInitialize =>
    have hne := hc rfl
    unfold specCall at hne ⊢
    dsimp only at hne ⊢
    by_cases hst : H.status w.calls DrvCall.XSecure_AesInitialize = XST_SUCCESS
    · rw [if_pos hst] at hne
      exact absurd hst hne
    · rw [if_neg hst]
      exact ⟨h1, h2⟩
  case XSecure_AesEncryptInit =>
    unfold specCall
    dsimp only
    rw [if_pos h1]
    exact ⟨h1, h2⟩
  case XSecure_AesDecryptInit =>
    unfold specCall
    dsimp only
    rw [if_pos h1]
    exact ⟨h1, h2⟩
  all_goals exact ⟨h1, h2⟩

theorem invoke_idle (H : Hardware) (c : DrvCall) (s : AesSt AesSession) (hs : s.world.Idle)
    (hc : c = DrvCall.XSecure_AesInitialize → (invoke (specDrivers H) c s).1 ≠ XST_SUCCESS) :
    (invoke (specDrivers H) c s).2.world.Idle :=
  specCall_idle H c s.world hs hc

theorem invoke_opInit_fails (H : Hardware) (c : DrvCall) (s : AesSt AesSession)
    (hs : s.world.Idle)
    (hc : (∃ k z iv, c = DrvCall.XSecure_AesEncryptInit k z iv) ∨
      (∃ k z iv, c = DrvCall.XSecure_AesDecryptInit k z iv)) :
    (invoke (specDrivers H) c s).1 = XST_FAILURE := by
  rcases hc with ⟨k, z, iv, rfl⟩ | ⟨k, z, iv, rfl⟩
  · show (specCall H _ s.world).1 = XST_FAILURE
    unfold specCall
    dsimp only
    rw [if_pos hs.1]
  · show (specCall H _ s.world).1 = XST_FAILURE
    unfold specCall
    dsimp only
    rw [if_pos hs.1]

theorem XSecure_AesOpInit_idle (K : AesConsts) (H : Hardware) (lo hi : Nat)
    (s : AesSt AesSession) (hs : s.world.Idle) :
    (XSecure_AesOpInit K (specDrivers H) lo hi s).1 ≠ XST_SUCCESS ∧
      (XSecure_AesOpInit K (specDrivers H) lo hi s).2.world.Idle := by
  unfold XSecure_AesOpInit
  dsimp only
  have h1 := invoke_idle H (.XPlmi_DmaXfr (mkAddr lo hi) K.sizeof_AesInitOps K.XPLMI_PMCDMA_0) s
    hs (fun h => by cases h)
  split
  · rename_i hne
    exact ⟨hne, h1⟩
  · split
    · refine ⟨?_, invoke_idle H _ _ h1 (fun h => by cases h)⟩
      rw [invoke_opInit_fails H _ _ h1 (Or.inl ⟨_, _, _, rfl⟩)]
      exact XST_FAILURE_ne_SUCCESS
    · refine ⟨?_, invoke_idle H _ _ h1 (fun h => by cases h)⟩
      rw [invoke_opInit_fails H _ _ h1 (Or.inr ⟨_, _, _, rfl⟩)]
      exact XST_FAILURE_ne_SUCCESS

theorem two_step_idle (H : Hardware) (c1 c2 : DrvCall) (s : AesSt AesSession)
    (hs : s.world.Idle) (h1 : c1 ≠ DrvCall.XSecure_AesInitialize)
    (h2 : c2 ≠ DrvCall.XSecure_AesInitialize) :
    (if (invoke (specDrivers H) c1 s).1 ≠ XST_SUCCESS then
        ((invoke (specDrivers H) c1 s).1, (invoke (specDrivers H) c1 s).2)
      else invoke (specDrivers H) c2 (invoke (specDrivers H) c1 s).2).2.world.Idle := by
  have i1 := invoke_idle H c1 s hs (fun h => absurd h h1)
  split
  · exact i1
  · exact invoke_idle H c2 _ i1 (fun h => absurd h h2)

theorem XSecure_AesInit_idle (K : AesConsts) (H : Hardware) (s : AesSt AesSession)
    (hs : s.world.Idle) (hfail : (XSecure_AesInit K (specDrivers H) s).1 ≠ XST_SUCCESS) :
    (XSecure_AesInit K (specDrivers H) s).2.world.Idle := by
  unfold XSecure_AesInit at hfail ⊢
  dsimp only at hfail ⊢
  cases hcfg : ((specDrivers H).XPmcDma_LookupConfig K.PMCDMA_0_DEVICE_ID s.world).1 with
  | none =>
    exact hs
  | some Cfg =>
    rw [hcfg] at hfail
    dsimp only at hfail ⊢
    have hs1 : (AesSt.mk ((specDrivers H).XPmcDma_LookupConfig K.PMCDMA_0_DEVICE_ID s.world).2
        (some Cfg) (s.log ++ [Event.lookup K.PMCDMA_0_DEVICE_ID (some Cfg)])).world.Idle := hs
    have i1 := invoke_idle H (.XPmcDma_CfgInitialize Cfg Cfg.BaseAddress) _ hs1
      (fun h => by cases h)
    split
    · exact i1
    · rename_i hok
      rw [if_neg hok] at hfail
      exact invoke_idle H .XSecure_AesInitialize _ i1 (fun _ => hfail)

theorem XSecure_AesIpiHandler_idle (K : AesConsts) (H : Hardware) (Cmd : XPlmi_Cmd)
    (s : AesSt AesSession) (hs : s.world.Idle)
    (hinit : Cmd.CmdId &&& 0xFF = K.API_AES_INIT →
      (XSecure_AesIpiHandler K (specDrivers H) Cmd s).1 ≠ XST_SUCCESS) :
    (XSecure_AesIpiHandler K (specDrivers H) Cmd s).2.world.Idle := by
  unfold XSecure_AesIpiHandler at hinit ⊢
  dsimp only at hinit ⊢
  by_cases h0 : Cmd.CmdId &&& 0xFF = K.API_AES_INIT
  · rw [if_pos h0] at hinit ⊢
    exact XSecure_AesInit_idle K H s hs (hinit h0)
  rw [if_neg h0]
  by_cases h1 : Cmd.CmdId &&& 0xFF = K.API_AES_OP_INIT
  · rw [if_pos h1]
    exact (XSecure_AesOpInit_idle K H _ _ s hs).2
  rw [if_neg h1]
  by_cases h2 : Cmd.CmdId &&& 0xFF = K.API_AES_UPDATE_AAD
  · rw [if_pos h2]
    exact invoke_idle H _ s hs (fun h => by cases h)
  rw [if_neg h2]
  by_cases h3 : Cmd.CmdId &&& 0xFF = K.API_AES_ENCRYPT_UPDATE
  · rw [if_pos h3]
    unfold XSecure_AesEncUpdate
    dsimp only
    exact two_step_idle H _ _ s hs (fun h => by cases h) (fun h => by cases h)
  rw [if_neg h3]
  by_cases h4 : Cmd.CmdId &&& 0xFF = K.API_AES_ENCRYPT_FINAL
  · rw [if_pos h4]
    exact invoke_idle H _ s hs (fun h => by cases h)
  rw [if_neg h4]
  by_cases h5 : Cmd.CmdId &&& 0xFF = K.API_AES_DECRYPT_UPDATE
  · rw [if_pos h5]
    unfold XSecure_AesDecUpdate
    dsimp only
    exact two_step_idle H _ _ s hs (fun h => by cases h) (fun h => by cases h)
  rw [if_neg h5]
  by_cases h6 : Cmd.CmdId &&& 0xFF = K.API_AES_DECRYPT_FINAL
  · rw [if_pos h6]
    exact invoke_idle H _ s hs (fun h => by cases h)
  rw [if_neg h6]
  by_cases h7 : Cmd.CmdId &&& 0xFF = K.API_AES_KEY_ZERO
  · rw [if_pos h7]
    exact invoke_idle H _ s hs (fun h => by cases h)
  rw [if_neg h7]
  by_cases h8 : Cmd.CmdId &&& 0xFF = K.API_AES_WRITE_KEY
  · rw [if_pos h8]
    exact invoke_idle H _ s hs (fun h => by cases h)
  rw [if_neg h8]
  by_cases h9 : Cmd.CmdId &&& 0xFF = K.API_AES_KEK_DECRYPT
  · rw [if_pos h9]
    exact invoke_idle H _ s hs (fun h => by cases h)
  rw [if_neg h9]
  by_cases h10 : Cmd.CmdId &&& 0xFF = K.API_AES_SET_DPA_CM
  · rw [if_pos h10]
    exact invoke_idle H _ s hs (fun h => by cases h)
  rw [if_neg h10]
  by_cases h11 : Cmd.CmdId &&& 0xFF = K.API_AES_DECRYPT_KAT
  · rw [if_pos h11]
    exact invoke_idle H _ s hs (fun h => by cases h)
  rw [if_neg h11]
  by_cases h12 : Cmd.CmdId &&& 0xFF = K.API_AES_DECRYPT_CM_KAT
  · rw [if_pos h12]
    exact invoke_idle H _ s hs (fun h => by cases h)
  rw [if_neg h12]
  exact hs

theorem runCmds_idle (K : AesConsts) (H : Hardware) :
    ∀ (history : List XPlmi_Cmd) (s : AesSt AesSession), s.world.Idle →
      noInitSucceeded K (specDrivers H) history s = true →
      (runCmds K (specDrivers H) history s).world.Idle := by
  intro history
  induction history with
  | nil => intro s hs _; exact hs
  | cons Cmd rest ih =>
    intro s hs hno
    unfold noInitSucceeded at hno
    rw [Bool.and_eq_true] at hno
    unfold runCmds
    exact ih _ (XSecure_AesIpiHandler_idle K H Cmd s hs (of_decide_eq_true hno.1)) hno.2

/-- C11: with the AES driver following the spec's session state machine
(`specDrivers`), in any state reached from start-up by commands among which no
`XSECURE_API_AES_INIT` command returned `XST_SUCCESS`, dispatching
`XSECURE_API_AES_OP_INIT` with any payload returns a status other than
`XST_SUCCESS`, and afterwards the session is still not initialised and its
operation is still `Uninitialized`: neither Encrypt nor Decrypt is selected. -/
theorem OpInit_requires_initialised_session (K : AesConsts) (H : Hardware)
    (history : List XPlmi_Cmd) (Cmd : XPlmi_Cmd)
    (hlabel : K.API_AES_OP_INIT ≠ K.API_AES_INIT)
    (hnever : noInitSucceeded K (specDrivers H) history freshSt = true)
    (hcmd : Cmd.CmdId &&& 0xFF = K.API_AES_OP_INIT) :
    (XSecure_AesIpiHandler K (specDrivers H) Cmd
        (runCmds K (specDrivers H) history freshSt)).1 ≠ XST_SUCCESS ∧
    (XSecure_AesIpiHandler K (specDrivers H) Cmd
        (runCmds K (specDrivers H) history freshSt)).2.world.operation
      = AesOperation.Uninitialized ∧
    (XSecure_AesIpiHandler K (specDrivers H) Cmd
        (runCmds K (specDrivers H) history freshSt)).2.world.initialized = false := by
  have hidle := runCmds_idle K H history freshSt ⟨rfl, rfl⟩ hnever
  have hne : ¬ Cmd.CmdId &&& 0xFF = K.API_AES_INIT := by rw [hcmd]; exact hlabel
  have hdisp : XSecure_AesIpiHandler K (specDrivers H) Cmd
      (runCmds K (specDrivers H) history freshSt) =
      XSecure_AesOpInit K (specDrivers H) (Cmd.Payload 0) (Cmd.Payload 1)
        (runCmds K (specDrivers H) history freshSt) := by
    unfold XSecure_AesIpiHandler
    dsimp only
    rw [if_neg hne, if_pos hcmd]
  rw [hdisp]
  obtain ⟨h1, h2, h3⟩ := XSecure_AesOpInit_idle K H (Cmd.Payload 0) (Cmd.Payload 1) _ hidle
  exact ⟨h1, h3, h2⟩

/-- C11 (witness): after a key-zeroize command and a failed
`XSECURE_API_AES_INIT` command, `XSECURE_API_AES_OP_INIT` on hardware whose
calls all succeed returns `XST_FAILURE`. -/
theorem OpInit_requires_initialised_session_witness :
    (sampleConsts.API_AES_OP_INIT ≠ sampleConsts.API_AES_INIT ∧
      noInitSucceeded sampleConsts (specDrivers sampleHardware)
        [sampleKeyZeroCmd, sampleInitCmd] freshSt = true ∧
      sampleOpInitCmd.CmdId &&& 0xFF = sampleConsts.API_AES_OP_INIT) ∧
    (XSecure_AesIpiHandler sampleConsts (specDrivers sampleHardware) sampleOpInitCmd
        (runCmds sampleConsts (specDrivers sampleHardware) [sampleKeyZeroCmd, sampleInitCmd]
          freshSt)).1 = XST_FAILURE ∧
    (XSecure_AesIpiHandler sampleConsts (specDrivers sampleHardware) sampleOpInitCmd
        (runCmds sampleConsts (specDrivers sampleHardware) [sampleKeyZeroCmd, sampleInitCmd]
          freshSt)).2.world.operation = AesOperation.Uninitialized :=
  ⟨⟨by decide, by decide, by decide⟩, by decide,
   (OpInit_requires_initialised_session sampleConsts sampleHardware
     [sampleKeyZeroCmd, sampleInitCmd] sampleOpInitCmd (by decide) (by decide)
     (by decide)).2.1⟩

end Embeddedsw
